import Mathlib

/-!
# webtmux: the tmux Controller (`pkg/tmux/controller.go`, `pkg/tmux/types.go`)

A shallow embedding of the Controller and of the Go library functions it calls.

* Go strings are modelled as lists of Unicode code points (`Str`), that is, as valid
  UTF-8 text.  The separators the Controller splits on (`,` and `\n`) are single ASCII
  bytes, so splitting code points and splitting bytes agree on such text.
* Go `int` is the 64-bit signed integer; values are kept in `Int` and the places where
  Go clamps or wraps are written out.
* The `tmux` binary is an arbitrary deterministic behaviour `Tmux`: the result of an
  invocation is a function of the invocations made before it and of its arguments.
  The list of invocations made so far is carried in `World.calls`.
* The mutex around `layoutCache` and the two channels of `Controller` play no part in
  the sequential behaviour described here and are not modelled.
-/

namespace Webtmux

/-- A Go string, as the list of its code points. -/
abbrev Str := List Char

/-! ## Go library functions -/

/-- Go `strings.Split(s, sep)` for a separator of one ASCII byte. -/
def Split : Str → Char → List Str
  | [], _ => [[]]
  | c :: cs, sep =>
    if c = sep then [] :: Split cs sep
    else
      match Split cs sep with
      | [] => [[c]]
      | p :: ps => (c :: p) :: ps

/-- Go `unicode.IsSpace`. -/
def IsSpace (r : Char) : Bool :=
  let n := r.toNat
  if n ≤ 0xFF then
    n == 0x09 || n == 0x0A || n == 0x0B || n == 0x0C || n == 0x0D || n == 0x20 ||
      n == 0x85 || n == 0xA0
  else
    n == 0x1680 || (0x2000 ≤ n && n ≤ 0x200A) || n == 0x2028 || n == 0x2029 ||
      n == 0x202F || n == 0x205F || n == 0x3000

/-- Go `strings.TrimSpace`: leading and trailing white space removed. -/
def TrimSpace (s : Str) : Str :=
  (s.dropWhile IsSpace).rdropWhile IsSpace

/-- Go `len(s)`: the number of bytes of the UTF-8 encoding. -/
def byteLen (s : Str) : Nat :=
  (s.map Char.utf8Size).sum

/-- The two kinds of `*strconv.NumError`. -/
inductive NumErr where
  | invalid
  | outOfRange
  deriving DecidableEq, Repr

/-- The digit loop of the fast path of `strconv.Atoi`: `n = n*10 + int(ch)`, with a
syntax error (`none`) at the first byte that is not a decimal digit. -/
def atoiDigits : Nat → Str → Option Nat
  | n, [] => some n
  | n, ch :: rest =>
    if 48 ≤ ch.toNat ∧ ch.toNat ≤ 57 then atoiDigits (n * 10 + (ch.toNat - 48)) rest
    else none

/-- The digit loop of `strconv.ParseUint(s, 10, 64)`, from accumulator `n`. -/
def parseUintLoop : Nat → Str → Nat × Option NumErr
  | n, [] => (n, none)
  | n, c :: rest =>
    if 48 ≤ c.toNat ∧ c.toNat ≤ 57 then
      let d := c.toNat - 48
      -- cutoff = maxUint64/10 + 1
      if n ≥ (2 ^ 64 - 1) / 10 + 1 then (2 ^ 64 - 1, some NumErr.outOfRange)
      else
        let n10 := n * 10
        let n1 := (n10 + d) % 2 ^ 64
        if n1 < n10 ∨ n1 > 2 ^ 64 - 1 then (2 ^ 64 - 1, some NumErr.outOfRange)
        else parseUintLoop n1 rest
    else (0, some NumErr.invalid)

/-- Go `strconv.ParseUint(s, 10, 64)`. -/
def ParseUint (s : Str) : Nat × Option NumErr :=
  if s = [] then (0, some NumErr.invalid) else parseUintLoop 0 s

/-- Go `strconv.ParseInt(s, 10, 0)` with 64-bit `int`. -/
def ParseInt (s : Str) : Int × Option NumErr :=
  match s with
  | [] => (0, some NumErr.invalid)
  | c0 :: tl =>
    let neg := decide (c0 = '-')
    let s1 := if c0 = '+' ∨ c0 = '-' then tl else s
    match ParseUint s1 with
    | (_, some NumErr.invalid) => (0, some NumErr.invalid)
    | (un, _) =>
      -- cutoff = 1 << 63
      if !neg && decide (un ≥ 2 ^ 63) then (2 ^ 63 - 1, some NumErr.outOfRange)
      else if neg && decide (un > 2 ^ 63) then (-(2 ^ 63), some NumErr.outOfRange)
      else (if neg then -(un : Int) else (un : Int), none)

/-- Go `strconv.Atoi` with 64-bit `int`: the value and the error. -/
def Atoi (s : Str) : Int × Option NumErr :=
  match s with
  | [] => ParseInt s
  | c0 :: tl =>
    if byteLen s < 19 then
      -- fast path for small integers that fit the int type
      let signed := decide (c0 = '-' ∨ c0 = '+')
      let s1 := if signed then tl else s
      if signed && decide (s1.length < 1) then (0, some NumErr.invalid)
      else
        match atoiDigits 0 s1 with
        | none => (0, some NumErr.invalid)
        | some n => (if c0 = '-' then -(n : Int) else (n : Int), none)
    else ParseInt s

/-- The value of `v, _ := strconv.Atoi(s)`. -/
def atoiVal (s : Str) : Int := (Atoi s).1

/-! ## Types (`types.go`) -/

structure Session where
  ID : Str
  Name : Str
  Windows : Int
  Attached : Bool
  Active : Bool
  deriving DecidableEq, Repr

structure Pane where
  ID : Str
  Index : Int
  Active : Bool
  Width : Int
  Height : Int
  Top : Int
  Left : Int
  Command : Str
  Title : Str
  deriving DecidableEq, Repr

structure Window where
  ID : Str
  Name : Str
  Index : Int
  Active : Bool
  Panes : List Pane
  deriving DecidableEq, Repr

structure Layout where
  SessionID : Str
  SessionName : Str
  Sessions : List Session
  Windows : List Window
  ActiveWinID : Str
  ActivePaneID : Str
  deriving DecidableEq, Repr

/-! ## The Controller (`controller.go`) -/

/-- The Controller: the bound session name and the layout cache (`nil` is `none`). -/
structure Controller where
  sessionName : Str
  layoutCache : Option Layout
  deriving DecidableEq, Repr

/-- The outcome of one run of the `tmux` binary: its standard output, or the error of
`cmd.Output()` (the binary is missing or exits non-zero). -/
inductive CmdResult where
  | ok (out : Str)
  | fail (cause : Str)
  deriving DecidableEq, Repr

/-- A behaviour of the `tmux` binary: the outcome of an invocation, given the argument
lists of the invocations made before it and its own argument list. -/
abbrev Tmux := List (List Str) → List Str → CmdResult

/-- The Controller together with the invocations of `tmux` made so far. -/
structure World where
  ctl : Controller
  calls : List (List Str)
  deriving DecidableEq, Repr

/-- Go `parts[i]` on a slice whose length has been checked. -/
def field (parts : List Str) (i : Nat) : Str := parts.getD i []

def sessionFormat : Str := "#\x7bsession_id\x7d,#\x7bsession_name\x7d".toList

def sessionsFormat : Str :=
  "#\x7bsession_id\x7d,#\x7bsession_name\x7d,#\x7bsession_windows\x7d,#\x7bsession_attached\x7d".toList

def windowsFormat : Str :=
  "#\x7bwindow_id\x7d,#\x7bwindow_name\x7d,#\x7bwindow_index\x7d,#\x7bwindow_active\x7d".toList

def panesFormat : Str :=
  ("#\x7bpane_id\x7d,#\x7bpane_index\x7d,#\x7bpane_active\x7d,#\x7bpane_width\x7d," ++
    "#\x7bpane_height\x7d,#\x7bpane_top\x7d,#\x7bpane_left\x7d," ++
    "#\x7bpane_current_command\x7d,#\x7bpane_title\x7d").toList

def displayMessageArgs (sessionName : Str) : List Str :=
  ["display-message".toList, "-t".toList, sessionName, "-p".toList, sessionFormat]

def listSessionsArgs : List Str :=
  ["list-sessions".toList, "-F".toList, sessionsFormat]

def listWindowsArgs (sessionName : Str) : List Str :=
  ["list-windows".toList, "-t".toList, sessionName, "-F".toList, windowsFormat]

def listPanesArgs (windowID : Str) : List Str :=
  ["list-panes".toList, "-t".toList, windowID, "-F".toList, panesFormat]

/-- The method `runTmux`: one invocation of `tmux`; an error of the process is wrapped
as `tmux command failed: <cause>`. -/
def runTmux (t : Tmux) (args : List Str) (w : World) : Except Str Str × World :=
  match t w.calls args with
  | CmdResult.ok out => (Except.ok out, { w with calls := w.calls ++ [args] })
  | CmdResult.fail cause =>
    (Except.error ("tmux command failed: ".toList ++ cause),
      { w with calls := w.calls ++ [args] })

/-- The method `GetLayout`. -/
def GetLayout (c : Controller) : Option Layout := c.layoutCache

/-- One iteration of the loop over the lines of `list-sessions` (lines 91-109). -/
def sessionStep (sessionName : Str) (layout : Layout) (line : Str) : Layout :=
  if line = [] then layout
  else
    let parts := Split line ','
    if parts.length < 4 then layout
    else
      let sess : Session :=
        { ID := field parts 0
          Name := field parts 1
          Windows := atoiVal (field parts 2)
          Attached := decide (field parts 3 = ['1'])
          Active := decide (field parts 1 = sessionName) }
      { layout with Sessions := layout.Sessions ++ [sess] }

/-- The Pane built from the fields of a pane line (lines 157-174). -/
def paneOfParts (paneParts : List Str) : Pane :=
  { ID := field paneParts 0
    Index := atoiVal (field paneParts 1)
    Active := decide (field paneParts 2 = ['1'])
    Width := atoiVal (field paneParts 3)
    Height := atoiVal (field paneParts 4)
    Top := atoiVal (field paneParts 5)
    Left := atoiVal (field paneParts 6)
    Command := field paneParts 7
    Title := field paneParts 8 }

/-- One iteration of the loop over the lines of `list-panes` (lines 148-181), for a
window whose active flag is `active`. -/
def paneStep (active : Bool) (acc : Layout × Window) (paneLine : Str) : Layout × Window :=
  if paneLine = [] then acc
  else
    let paneParts := Split paneLine ','
    if paneParts.length < 9 then acc
    else
      let pane := paneOfParts paneParts
      let layout :=
        if pane.Active && active then { acc.1 with ActivePaneID := pane.ID } else acc.1
      (layout, { acc.2 with Panes := acc.2.Panes ++ [pane] })

/-- One iteration of the loop over the lines of `list-windows` (lines 118-184). -/
def windowStep (t : Tmux) (acc : Layout × World) (line : Str) : Layout × World :=
  if line = [] then acc
  else
    let parts := Split line ','
    if parts.length < 4 then acc
    else
      let active := decide (field parts 3 = ['1'])
      let win : Window :=
        { ID := field parts 0
          Name := field parts 1
          Index := atoiVal (field parts 2)
          Active := active
          Panes := [] }
      let layout := if active then { acc.1 with ActiveWinID := win.ID } else acc.1
      match runTmux t (listPanesArgs win.ID) acc.2 with
      | (Except.error _, w) => (layout, w)
      | (Except.ok panesOut, w) =>
        let r := (Split (TrimSpace panesOut) '\n').foldl (paneStep active) (layout, win)
        ({ r.1 with Windows := r.1.Windows ++ [r.2] }, w)

/-- The method `RefreshLayout`: the returned error (`none` is `nil`) and the world. -/
def RefreshLayout (t : Tmux) (w : World) : Option Str × World :=
  match runTmux t (displayMessageArgs w.ctl.sessionName) w with
  | (Except.error err, w1) => (some err, w1)
  | (Except.ok sessionOut, w1) =>
    let sessionParts := Split (TrimSpace sessionOut) ','
    if sessionParts.length < 2 then
      (some ("invalid session output: ".toList ++ sessionOut), w1)
    else
      let layout0 : Layout :=
        { SessionID := field sessionParts 0
          SessionName := field sessionParts 1
          Sessions := []
          Windows := []
          ActiveWinID := []
          ActivePaneID := [] }
      match runTmux t listSessionsArgs w1 with
      | (sessionsRes, w2) =>
        let layout1 :=
          match sessionsRes with
          | Except.ok sessionsOut =>
            (Split (TrimSpace sessionsOut) '\n').foldl (sessionStep w2.ctl.sessionName) layout0
          | Except.error _ => layout0
        match runTmux t (listWindowsArgs w2.ctl.sessionName) w2 with
        | (Except.error err, w3) => (some err, w3)
        | (Except.ok windowsOut, w3) =>
          let r := (Split (TrimSpace windowsOut) '\n').foldl (windowStep t) (layout1, w3)
          (none, { r.2 with ctl := { r.2.ctl with layoutCache := some r.1 } })

/-- The method `SelectPane`. -/
def SelectPane (t : Tmux) (paneID : Str) (w : World) : Option Str × World :=
  match runTmux t ["select-pane".toList, "-t".toList, paneID] w with
  | (Except.error err, w1) => (some err, w1)
  | (Except.ok _, w1) => (none, (RefreshLayout t w1).2)

/-- The method `SelectWindow`. -/
def SelectWindow (t : Tmux) (windowID : Str) (w : World) : Option Str × World :=
  match runTmux t ["select-window".toList, "-t".toList, windowID] w with
  | (Except.error err, w1) => (some err, w1)
  | (Except.ok _, w1) => (none, (RefreshLayout t w1).2)

/-- The method `SwitchSession`. -/
def SwitchSession (t : Tmux) (sessionName : Str) (w : World) : Option Str × World :=
  match runTmux t ["switch-client".toList, "-t".toList, sessionName] w with
  | (Except.error err, w1) => (some err, w1)
  | (Except.ok _, w1) =>
    (none, (RefreshLayout t { w1 with ctl := { w1.ctl with sessionName := sessionName } }).2)

/-- The method `SplitPane`. -/
def SplitPane (t : Tmux) (horizontal : Bool) (w : World) : Option Str × World :=
  let flag := if horizontal then "-h".toList else "-v".toList
  match runTmux t ["split-window".toList, "-t".toList, w.ctl.sessionName, flag] w with
  | (Except.error err, w1) => (some err, w1)
  | (Except.ok _, w1) => (none, (RefreshLayout t w1).2)

/-- The method `ClosePane`. -/
def ClosePane (t : Tmux) (paneID : Str) (w : World) : Option Str × World :=
  match runTmux t ["kill-pane".toList, "-t".toList, paneID] w with
  | (Except.error err, w1) => (some err, w1)
  | (Except.ok _, w1) => (none, (RefreshLayout t w1).2)

/-- The method `NewWindow`. -/
def NewWindow (t : Tmux) (w : World) : Option Str × World :=
  match runTmux t ["new-window".toList, "-t".toList, w.ctl.sessionName] w with
  | (Except.error err, w1) => (some err, w1)
  | (Except.ok _, w1) => (none, (RefreshLayout t w1).2)

/-- The arguments of the `send-keys -X` invocation of `ScrollUp` and `ScrollDown`. -/
def sendKeysArgs (sessionName : Str) (command : Str) : List Str :=
  ["send-keys".toList, "-t".toList, sessionName, "-X".toList, command]

/-- The loop `for i := 0; i < lines; i++` of `ScrollUp` and `ScrollDown`, with the
number of iterations still to run (`lines - i`) as its first argument. -/
def scrollLoop (t : Tmux) (command : Str) : Nat → World → Option Str × World
  | 0, w => (none, w)
  | k + 1, w =>
    match runTmux t (sendKeysArgs w.ctl.sessionName command) w with
    | (Except.error err, w1) => (some err, w1)
    | (Except.ok _, w1) => scrollLoop t command k w1

/-- The method `ScrollUp`. -/
def ScrollUp (t : Tmux) (lines : Int) (w : World) : Option Str × World :=
  scrollLoop t "scroll-up".toList lines.toNat w

/-- The method `ScrollDown`. -/
def ScrollDown (t : Tmux) (lines : Int) (w : World) : Option Str × World :=
  scrollLoop t "scroll-down".toList lines.toNat w

/-! ## What a refresh asks and is answered

The names below describe, for a refresh started in world `w`, the invocations it makes
and the answers it gets; they are used to state the theorems. -/

/-- The id field of a window line. -/
def windowID (line : Str) : Str := field (Split line ',') 0

/-- A window line is well formed: it splits into at least 4 fields. -/
def windowLineOK (line : Str) : Prop := 4 ≤ (Split line ',').length

instance (line : Str) : Decidable (windowLineOK line) := by
  unfold windowLineOK; infer_instance

/-- The active field of a window line is `1`. -/
def windowLineActive (line : Str) : Prop := field (Split line ',') 3 = ['1']

instance (line : Str) : Decidable (windowLineActive line) := by
  unfold windowLineActive; infer_instance

/-- A pane line is well formed: it splits into at least 9 fields. -/
def paneLineOK (paneLine : Str) : Prop := 9 ≤ (Split paneLine ',').length

instance (paneLine : Str) : Decidable (paneLineOK paneLine) := by
  unfold paneLineOK; infer_instance

/-- The Pane built from a pane line. -/
def paneOfLine (paneLine : Str) : Pane := paneOfParts (Split paneLine ',')

/-- The lines of a `list-panes` output. -/
def paneLines (panesOut : Str) : List Str := Split (TrimSpace panesOut) '\n'

/-- The Window record built from a window line, with the given panes. -/
def windowOfLine (line : Str) (panes : List Pane) : Window :=
  { ID := windowID line
    Name := field (Split line ',') 1
    Index := atoiVal (field (Split line ',') 2)
    Active := decide (windowLineActive line)
    Panes := panes }

/-- The three queries a refresh makes before its loop over the window lines. -/
def refreshCalls (sessionName : Str) : List (List Str) :=
  [displayMessageArgs sessionName, listSessionsArgs, listWindowsArgs sessionName]

/-- The `list-panes` invocations made by the loop over the given window lines: one for
each well-formed line, in order. -/
def loopCalls (lines : List Str) : List (List Str) :=
  (lines.filter (fun l => decide (windowLineOK l))).map (fun l => listPanesArgs (windowID l))

/-- The window lines a refresh started in `w` iterates over: `none` when the refresh
fails before its loop (the `display-message` query fails, its output has fewer than two
fields, or the `list-windows` query fails). -/
def windowLines (t : Tmux) (w : World) : Option (List Str) :=
  match t w.calls (displayMessageArgs w.ctl.sessionName) with
  | CmdResult.fail _ => none
  | CmdResult.ok sessionOut =>
    if (Split (TrimSpace sessionOut) ',').length < 2 then none
    else
      match t (w.calls ++ [displayMessageArgs w.ctl.sessionName, listSessionsArgs])
          (listWindowsArgs w.ctl.sessionName) with
      | CmdResult.fail _ => none
      | CmdResult.ok windowsOut => some (Split (TrimSpace windowsOut) '\n')

/-- The answer to the `list-panes` query of window line `line`, made after the window
lines `pre` have been processed, in a refresh started in `w`. -/
def panesResult (t : Tmux) (w : World) (pre : List Str) (line : Str) : CmdResult :=
  t (w.calls ++ refreshCalls w.ctl.sessionName ++ loopCalls pre) (listPanesArgs (windowID line))

/-! ## Further observations -/

/-- The panes built from a `list-panes` output: one per well-formed line, in order. -/
def panesOfOutput (panesOut : Str) : List Pane :=
  ((paneLines panesOut).filter (fun pl => decide (paneLineOK pl))).map paneOfLine

/-- The id of the last pane of `panes` with `Active` true, or `cur` when there is none. -/
def lastActiveID (cur : Str) (panes : List Pane) : Str :=
  panes.foldl (fun acc p => if p.Active then p.ID else acc) cur

/-- The world in which the loop over the window lines starts. -/
def loopStart (w : World) : World :=
  { w with calls := w.calls ++ refreshCalls w.ctl.sessionName }

/-- A pane line is well formed and its active field is `1`. -/
def paneLineActive (paneLine : Str) : Prop :=
  paneLineOK paneLine ∧ field (Split paneLine ',') 2 = ['1']

instance (paneLine : Str) : Decidable (paneLineActive paneLine) := by
  unfold paneLineActive; infer_instance

/-- The invocation succeeded. -/
def CmdResult.succeeded : CmdResult → Bool
  | CmdResult.ok _ => true
  | CmdResult.fail _ => false

/-! ## Contracts and invariants used in the statements -/

/-- The contract of a mutation operation `op` whose own command is `cmd`, started in
world `w`, where `w1` is the world in which the follow-up refresh starts:
* the operation returns an error exactly when its own command fails;
* when the command succeeds the operation returns success, whatever the refresh
  returns, and the refresh is what produces the final world;
* when the command fails the error is that of the command, the only invocation made is
  the command itself (no refresh is attempted) and the Controller, with its cached
  Layout, is unchanged. -/
def MutationContract (t : Tmux) (op : World → Option Str × World) (cmd : List Str)
    (w w1 : World) : Prop :=
  ((op w).1 ≠ none ↔ ∃ cause, t w.calls cmd = CmdResult.fail cause) ∧
  (∀ out, t w.calls cmd = CmdResult.ok out →
    (op w).1 = none ∧ (op w).2 = (RefreshLayout t w1).2) ∧
  (∀ cause, t w.calls cmd = CmdResult.fail cause →
    (op w).1 = some ("tmux command failed: ".toList ++ cause) ∧
    (op w).2.calls = w.calls ++ [cmd] ∧
    (op w).2.ctl = w.ctl ∧
    GetLayout (op w).2.ctl = GetLayout w.ctl)

/-- What `ScrollUp` or `ScrollDown` (`scroll`) does for `n ≥ 0`, where `cmd` is the
argument list of the invocation it is to make:
* if each of the `n` invocations succeeds, exactly `n` invocations of `cmd` are made
  and the result is success;
* if the `k`-th invocation (`1 ≤ k ≤ n`) is the first to fail, exactly `k` invocations
  of `cmd` are made and the result is the error of that invocation;
* for `n = 0` no invocation is made and the result is success. -/
def ScrollContract (t : Tmux) (scroll : Int → World → Option Str × World) (cmd : List Str)
    (n : Nat) (w : World) : Prop :=
  ((∀ i, i < n → (t (w.calls ++ List.replicate i cmd) cmd).succeeded = true) →
    scroll (n : Int) w = (none, { w with calls := w.calls ++ List.replicate n cmd })) ∧
  (∀ k cause, 1 ≤ k → k ≤ n →
    (∀ i, i < k - 1 → (t (w.calls ++ List.replicate i cmd) cmd).succeeded = true) →
    t (w.calls ++ List.replicate (k - 1) cmd) cmd = CmdResult.fail cause →
    scroll (n : Int) w =
      (some ("tmux command failed: ".toList ++ cause),
        { w with calls := w.calls ++ List.replicate k cmd })) ∧
  scroll 0 w = (none, w)

/-- The integer `v` stored for a field with text `text`: the value of `strconv.Atoi`, a
64-bit integer that is non-negative unless the text starts with `-`. -/
def atoiField (text : Str) (v : Int) : Prop :=
  v = atoiVal text ∧ -(2 ^ 63) ≤ v ∧ v ≤ 2 ^ 63 - 1 ∧ (text.head? ≠ some '-' → 0 ≤ v)

/-- The active pane id names a pane with `Active` true of a published window with
`Active` true. -/
def PaneInv (l : Layout) : Prop :=
  l.ActivePaneID = [] ∨
    ∃ win ∈ l.Windows, win.Active = true ∧
      ∃ p ∈ win.Panes, p.Active = true ∧ p.ID = l.ActivePaneID

/-- As `PaneInv`, and the window is the one named by the active window id. -/
def PaneWinInv (l : Layout) : Prop :=
  l.ActivePaneID = [] ∨
    ∃ win ∈ l.Windows, win.Active = true ∧ win.ID = l.ActiveWinID ∧
      ∃ p ∈ win.Panes, p.Active = true ∧ p.ID = l.ActivePaneID

/-! ## Concrete `tmux` behaviours, worlds and layouts -/

/-- A `tmux` whose answer depends only on the verb (and, for `list-panes`, on the
target window): `dm` to `display-message`, `ls` to `list-sessions`, `lw` to
`list-windows`, `lp target` to `list-panes -t target`; every other command succeeds with
no output. -/
def stubTmux (dm ls lw : CmdResult) (lp : Str → CmdResult) : Tmux := fun _ args =>
  match args with
  | [] => CmdResult.fail "exit status 1".toList
  | verb :: rest =>
    if verb = "display-message".toList then dm
    else if verb = "list-sessions".toList then ls
    else if verb = "list-windows".toList then lw
    else if verb = "list-panes".toList then lp (field rest 1)
    else CmdResult.ok []

/-- A Controller bound to session `work` with nothing cached and no invocation made. -/
def freshWorld : World :=
  { ctl := { sessionName := "work".toList, layoutCache := none }, calls := [] }

/-- A Layout as cached by an earlier refresh of session `work`. -/
def cachedLayout : Layout :=
  { SessionID := "$0".toList
    SessionName := "work".toList
    Sessions := []
    Windows := [{ ID := "@1".toList, Name := "main".toList, Index := 0, Active := true, Panes := [] }]
    ActiveWinID := "@1".toList
    ActivePaneID := [] }

/-- A Controller bound to session `work` holding `cachedLayout`. -/
def cachedWorld : World :=
  { ctl := { sessionName := "work".toList, layoutCache := some cachedLayout }, calls := [] }

/-- A `tmux` whose `list-windows` exits non-zero (scenario 5 of the specification). -/
def tmuxListWindowsFails : Tmux :=
  stubTmux (CmdResult.ok "$0,work\n".toList) (CmdResult.ok "$0,work,1,1\n".toList)
    (CmdResult.fail "exit status 1".toList) (fun _ => CmdResult.ok [])

/-- A `tmux` whose `display-message` prints three comma-separated fields. -/
def tmuxThreeFields : Tmux :=
  stubTmux (CmdResult.ok "$0,a,b\n".toList) (CmdResult.ok "$0,a,b,1,1\n".toList)
    (CmdResult.ok "@1,main,0,1\n".toList)
    (fun _ => CmdResult.ok "%1,0,1,80,24,0,0,bash,terminal\n".toList)

/-- A `tmux` whose `display-message` prints a single field. -/
def tmuxOneField : Tmux :=
  stubTmux (CmdResult.ok "$0\n".toList) (CmdResult.ok "$0,work,1,1\n".toList)
    (CmdResult.ok "@1,main,0,1\n".toList)
    (fun _ => CmdResult.ok "%1,0,1,80,24,0,0,bash,terminal\n".toList)

/-- A `tmux` that succeeds for its first `k` invocations and fails from then on. -/
def tmuxFailsAfter (k : Nat) : Tmux := fun calls _ =>
  if calls.length < k then CmdResult.ok [] else CmdResult.fail "exit status 1".toList

/-- A `tmux` on which every command succeeds; session `other` has one window and one
pane. -/
def tmuxOther : Tmux :=
  stubTmux (CmdResult.ok "$1,other\n".toList) (CmdResult.ok "$0,work,1,0\n$1,other,1,1\n".toList)
    (CmdResult.ok "@2,main,0,1\n".toList)
    (fun _ => CmdResult.ok "%3,0,1,80,24,0,0,bash,terminal\n".toList)

/-- A `tmux` on which every command fails. -/
def tmuxDown : Tmux := fun _ _ => CmdResult.fail "exit status 1".toList

/-- The `tmux` of scenario 4 of the specification: the first pane line has 8 fields. -/
def tmuxShortPaneLine : Tmux :=
  stubTmux (CmdResult.ok "$0,work\n".toList) (CmdResult.ok "$0,work,1,1\n".toList)
    (CmdResult.ok "@1,main,0,1\n".toList)
    (fun _ => CmdResult.ok "%1,0,1,80,24,0,0,bash\n%2,1,0,80,24,0,0,bash,title\n".toList)

/-- A `tmux` whose `list-panes` exits non-zero. -/
def tmuxListPanesFails : Tmux :=
  stubTmux (CmdResult.ok "$0,work\n".toList) (CmdResult.ok "$0,work,1,1\n".toList)
    (CmdResult.ok "@1,main,0,1\n".toList) (fun _ => CmdResult.fail "exit status 1".toList)

/-- A `tmux` with two windows whose `list-panes` fails for window `@1` only. -/
def tmuxFirstWindowFails : Tmux :=
  stubTmux (CmdResult.ok "$0,work\n".toList) (CmdResult.ok "$0,work,2,1\n".toList)
    (CmdResult.ok "@1,main,0,1\n@2,logs,1,0\n".toList)
    (fun target =>
      if target = "@1".toList then CmdResult.fail "exit status 1".toList
      else CmdResult.ok "%2,0,1,80,24,0,0,tail,logs\n".toList)

/-- A `tmux` whose only pane line gives a pane width of `-80`. -/
def tmuxNegativeWidth : Tmux :=
  stubTmux (CmdResult.ok "$0,work\n".toList) (CmdResult.ok "$0,work,1,1\n".toList)
    (CmdResult.ok "@1,main,0,1\n".toList)
    (fun _ => CmdResult.ok "%1,0,1,-80,24,0,0,bash,terminal\n".toList)

/-- The pane published by a refresh of `freshWorld` against `tmuxNegativeWidth`. -/
def negativeWidthPane : Pane :=
  { ID := "%1".toList, Index := 0, Active := true, Width := -80, Height := 24, Top := 0,
    Left := 0, Command := "bash".toList, Title := "terminal".toList }

/-- The window published by a refresh of `freshWorld` against `tmuxNegativeWidth`. -/
def negativeWidthWindow : Window :=
  { ID := "@1".toList, Name := "main".toList, Index := 0, Active := true,
    Panes := [negativeWidthPane] }

/-- The Layout published by a refresh of `freshWorld` against `tmuxNegativeWidth`. -/
def negativeWidthLayout : Layout :=
  { SessionID := "$0".toList
    SessionName := "work".toList
    Sessions := [{ ID := "$0".toList, Name := "work".toList, Windows := 1, Attached := true,
                   Active := true }]
    Windows := [negativeWidthWindow]
    ActiveWinID := "@1".toList
    ActivePaneID := "%1".toList }

/-- A `tmux` whose `list-windows` prints two window lines, both with active field `1`;
window `@1` has the active pane `%1`, window `@2` has no active pane. -/
def tmuxTwoActiveWindows : Tmux :=
  stubTmux (CmdResult.ok "$0,work\n".toList) (CmdResult.ok "$0,work,2,1\n".toList)
    (CmdResult.ok "@1,main,0,1\n@2,logs,1,1\n".toList)
    (fun target =>
      if target = "@1".toList then CmdResult.ok "%1,0,1,80,24,0,0,bash,terminal\n".toList
      else CmdResult.ok "%2,0,0,80,24,0,0,tail,logs\n".toList)

/-- The Layout published by a refresh of `freshWorld` against `tmuxListPanesFails`. -/
def danglingWindowLayout : Layout :=
  { SessionID := "$0".toList
    SessionName := "work".toList
    Sessions := [{ ID := "$0".toList, Name := "work".toList, Windows := 1, Attached := true,
                   Active := true }]
    Windows := []
    ActiveWinID := "@1".toList
    ActivePaneID := [] }

/-- The Layout published by a refresh of `freshWorld` against `tmuxTwoActiveWindows`. -/
def twoActiveWindowsLayout : Layout :=
  { SessionID := "$0".toList
    SessionName := "work".toList
    Sessions := [{ ID := "$0".toList, Name := "work".toList, Windows := 2, Attached := true,
                   Active := true }]
    Windows :=
      [{ ID := "@1".toList, Name := "main".toList, Index := 0, Active := true,
         Panes := [{ ID := "%1".toList, Index := 0, Active := true, Width := 80, Height := 24,
                     Top := 0, Left := 0, Command := "bash".toList,
                     Title := "terminal".toList }] },
       { ID := "@2".toList, Name := "logs".toList, Index := 1, Active := true,
         Panes := [{ ID := "%2".toList, Index := 0, Active := false, Width := 80, Height := 24,
                     Top := 0, Left := 0, Command := "tail".toList,
                     Title := "logs".toList }] }]
    ActiveWinID := "@2".toList
    ActivePaneID := "%1".toList }

/-- A `tmux` whose single active window reports two panes with active field `1`. -/
def tmuxTwoActivePanes : Tmux :=
  stubTmux (CmdResult.ok "$0,work\n".toList) (CmdResult.ok "$0,work,1,1\n".toList)
    (CmdResult.ok "@1,main,0,1\n".toList)
    (fun _ => CmdResult.ok
      "%1,0,1,80,24,0,0,bash,first\n%2,1,1,80,24,0,81,bash,second\n".toList)

/-! ## Lemmas and theorems -/

theorem Split_nil (sep : Char) : Split [] sep = [[]] := by
  simp [Split]

theorem Split_length_pos (s : Str) (sep : Char) : 1 ≤ (Split s sep).length := by
  induction s with
  | nil => simp [Split]
  | cons c cs ih =>
    unfold Split
    split
    · simp
    · split <;> simp

theorem paneLineOK_ne_nil {paneLine : Str} (h : paneLineOK paneLine) : paneLine ≠ [] := by
  intro hn
  subst hn
  simp [paneLineOK, Split] at h

theorem windowLineOK_ne_nil {line : Str} (h : windowLineOK line) : line ≠ [] := by
  intro hn
  subst hn
  simp [windowLineOK, Split] at h

theorem paneStep_ok (active : Bool) (l : Layout) (win : Window) (paneLine : Str)
    (h : paneLineOK paneLine) :
    paneStep active (l, win) paneLine =
      (if (paneOfLine paneLine).Active && active then
          { l with ActivePaneID := (paneOfLine paneLine).ID } else l,
        { win with Panes := win.Panes ++ [paneOfLine paneLine] }) := by
  have hne := paneLineOK_ne_nil h
  have hlen : ¬ (Split paneLine ',').length < 9 := by
    unfold paneLineOK at h; omega
  simp [paneStep, hne, hlen, paneOfLine]

theorem paneStep_skip (active : Bool) (acc : Layout × Window) (paneLine : Str)
    (h : ¬ paneLineOK paneLine) : paneStep active acc paneLine = acc := by
  have hlen : (Split paneLine ',').length < 9 := by
    unfold paneLineOK at h; omega
  unfold paneStep
  split
  · rfl
  · simp [hlen]

theorem paneLoop_snd (active : Bool) (lines : List Str) (l : Layout) (win : Window) :
    (lines.foldl (paneStep active) (l, win)).2 =
      { win with Panes := win.Panes ++
          (lines.filter (fun pl => decide (paneLineOK pl))).map paneOfLine } := by
  induction lines generalizing l win with
  | nil => simp
  | cons x xs ih =>
    rw [List.foldl_cons]
    by_cases h : paneLineOK x
    · rw [paneStep_ok active l win x h, ih]
      simp [h]
    · rw [paneStep_skip active (l, win) x h, ih]
      simp [h]

theorem paneLoop_fst (active : Bool) (lines : List Str) (l : Layout) (win : Window) :
    (lines.foldl (paneStep active) (l, win)).1 =
      if active then
        { l with ActivePaneID := (lastActiveID l.ActivePaneID
            ((lines.filter (fun pl => decide (paneLineOK pl))).map paneOfLine)) }
      else l := by
  induction lines generalizing l win with
  | nil => cases active <;> simp [lastActiveID]
  | cons x xs ih =>
    rw [List.foldl_cons]
    by_cases h : paneLineOK x
    · rw [paneStep_ok active l win x h, ih]
      cases active <;> cases hp : (paneOfLine x).Active <;> simp [h, hp, lastActiveID]
    · rw [paneStep_skip active (l, win) x h, ih]
      simp [h]

theorem runTmux_ok {t : Tmux} {args : List Str} {w : World} {out : Str}
    (h : t w.calls args = CmdResult.ok out) :
    runTmux t args w = (Except.ok out, { w with calls := w.calls ++ [args] }) := by
  simp [runTmux, h]

theorem runTmux_fail {t : Tmux} {args : List Str} {w : World} {cause : Str}
    (h : t w.calls args = CmdResult.fail cause) :
    runTmux t args w =
      (Except.error ("tmux command failed: ".toList ++ cause),
        { w with calls := w.calls ++ [args] }) := by
  simp [runTmux, h]

theorem windowStep_skip (t : Tmux) (acc : Layout × World) (line : Str)
    (h : ¬ windowLineOK line) : windowStep t acc line = acc := by
  have hlen : (Split line ',').length < 4 := by
    unfold windowLineOK at h; omega
  unfold windowStep
  split
  · rfl
  · simp [hlen]

theorem windowStep_fail (t : Tmux) (l : Layout) (w : World) (line : Str) (cause : Str)
    (h : windowLineOK line)
    (hf : t w.calls (listPanesArgs (windowID line)) = CmdResult.fail cause) :
    windowStep t (l, w) line =
      (if windowLineActive line then { l with ActiveWinID := windowID line } else l,
        { w with calls := w.calls ++ [listPanesArgs (windowID line)] }) := by
  have hne := windowLineOK_ne_nil h
  have hlen : ¬ (Split line ',').length < 4 := by
    unfold windowLineOK at h; omega
  unfold windowID at hf
  simp [windowStep, hne, hlen, runTmux_fail hf, windowLineActive, windowID]

theorem windowStep_ok (t : Tmux) (l : Layout) (w : World) (line : Str) (out : Str)
    (h : windowLineOK line)
    (hok : t w.calls (listPanesArgs (windowID line)) = CmdResult.ok out) :
    windowStep t (l, w) line =
      (if windowLineActive line then
          { l with
            ActiveWinID := windowID line
            ActivePaneID := (lastActiveID l.ActivePaneID (panesOfOutput out))
            Windows := l.Windows ++ [windowOfLine line (panesOfOutput out)] }
        else { l with Windows := l.Windows ++ [windowOfLine line (panesOfOutput out)] },
        { w with calls := w.calls ++ [listPanesArgs (windowID line)] }) := by
  have hne := windowLineOK_ne_nil h
  have hlen : ¬ (Split line ',').length < 4 := by
    unfold windowLineOK at h; omega
  unfold windowID at hok
  by_cases ha : windowLineActive line
  · have ha2 : field (Split line ',') 3 = ['1'] := ha
    simp [windowStep, hne, hlen, runTmux_ok hok, paneLoop_fst, paneLoop_snd, ha, ha2,
      windowID, windowOfLine, panesOfOutput, paneLines]
  · have ha2 : ¬ field (Split line ',') 3 = ['1'] := ha
    simp [windowStep, hne, hlen, runTmux_ok hok, paneLoop_fst, paneLoop_snd, ha, ha2,
      windowID, windowOfLine, panesOfOutput, paneLines]

theorem loopCalls_cons_ok {line : Str} (rest : List Str) (h : windowLineOK line) :
    loopCalls (line :: rest) = listPanesArgs (windowID line) :: loopCalls rest := by
  simp [loopCalls, h]

theorem loopCalls_cons_skip {line : Str} (rest : List Str) (h : ¬ windowLineOK line) :
    loopCalls (line :: rest) = loopCalls rest := by
  simp [loopCalls, h]

theorem loopCalls_append (xs ys : List Str) :
    loopCalls (xs ++ ys) = loopCalls xs ++ loopCalls ys := by
  simp [loopCalls]

theorem windowStep_snd (t : Tmux) (l : Layout) (w : World) (line : Str) :
    (windowStep t (l, w) line).2 = { w with calls := w.calls ++ loopCalls [line] } := by
  by_cases h : windowLineOK line
  · rw [loopCalls_cons_ok [] h]
    cases hr : t w.calls (listPanesArgs (windowID line)) with
    | ok out => rw [windowStep_ok t l w line out h hr]; simp [loopCalls]
    | fail cause => rw [windowStep_fail t l w line cause h hr]; simp [loopCalls]
  · rw [windowStep_skip t (l, w) line h, loopCalls_cons_skip [] h]
    simp [loopCalls]

theorem windowLoop_snd (t : Tmux) (lines : List Str) (l : Layout) (w : World) :
    (lines.foldl (windowStep t) (l, w)).2 = { w with calls := w.calls ++ loopCalls lines } := by
  induction lines generalizing l w with
  | nil => simp [loopCalls]
  | cons x xs ih =>
    rw [List.foldl_cons]
    have hs := windowStep_snd t l w x
    rw [show windowStep t (l, w) x = ((windowStep t (l, w) x).1, (windowStep t (l, w) x).2)
      from rfl, ih, hs]
    have : loopCalls (x :: xs) = loopCalls [x] ++ loopCalls xs := loopCalls_append [x] xs
    simp [this]

theorem sessionStep_frame (name : Str) (l : Layout) (line : Str) :
    (sessionStep name l line).SessionID = l.SessionID ∧
    (sessionStep name l line).SessionName = l.SessionName ∧
    (sessionStep name l line).Windows = l.Windows ∧
    (sessionStep name l line).ActiveWinID = l.ActiveWinID ∧
    (sessionStep name l line).ActivePaneID = l.ActivePaneID := by
  by_cases h1 : line = []
  · simp [sessionStep, h1]
  · by_cases h2 : (Split line ',').length < 4 <;> simp [sessionStep, h1, h2]

theorem sessionLoop_frame (name : Str) (lines : List Str) (l : Layout) :
    (lines.foldl (sessionStep name) l).SessionID = l.SessionID ∧
    (lines.foldl (sessionStep name) l).SessionName = l.SessionName ∧
    (lines.foldl (sessionStep name) l).Windows = l.Windows ∧
    (lines.foldl (sessionStep name) l).ActiveWinID = l.ActiveWinID ∧
    (lines.foldl (sessionStep name) l).ActivePaneID = l.ActivePaneID := by
  induction lines generalizing l with
  | nil => simp
  | cons x xs ih =>
    rw [List.foldl_cons]
    obtain ⟨h1, h2, h3, h4, h5⟩ := sessionStep_frame name l x
    obtain ⟨k1, k2, k3, k4, k5⟩ := ih (sessionStep name l x)
    exact ⟨k1.trans h1, k2.trans h2, k3.trans h3, k4.trans h4, k5.trans h5⟩

theorem RefreshLayout_ok (t : Tmux) (w : World) (lines : List Str)
    (h : windowLines t w = some lines) :
    ∃ l1 : Layout, l1.Windows = [] ∧ l1.ActiveWinID = [] ∧ l1.ActivePaneID = [] ∧
      (∀ sessionOut, t w.calls (displayMessageArgs w.ctl.sessionName) = CmdResult.ok sessionOut →
        l1.SessionID = field (Split (TrimSpace sessionOut) ',') 0 ∧
        l1.SessionName = field (Split (TrimSpace sessionOut) ',') 1) ∧
      RefreshLayout t w =
        (none,
          { ctl := { w.ctl with
              layoutCache := some (lines.foldl (windowStep t) (l1, loopStart w)).1 }
            calls := w.calls ++ refreshCalls w.ctl.sessionName ++ loopCalls lines }) := by
  unfold windowLines at h
  cases hdm : t w.calls (displayMessageArgs w.ctl.sessionName) with
  | fail cause => simp [hdm] at h
  | ok sessionOut =>
    simp only [hdm] at h
    by_cases hlen : (Split (TrimSpace sessionOut) ',').length < 2
    · simp [hlen] at h
    · simp only [hlen, if_false] at h
      cases hlw : t (w.calls ++ [displayMessageArgs w.ctl.sessionName, listSessionsArgs])
          (listWindowsArgs w.ctl.sessionName) with
      | fail cause => simp [hlw] at h
      | ok windowsOut =>
        simp only [hlw, Option.some.injEq] at h
        subst h
        cases hls : t (w.calls ++ [displayMessageArgs w.ctl.sessionName]) listSessionsArgs with
        | ok sessionsOut =>
          refine ⟨(Split (TrimSpace sessionsOut) '\n').foldl (sessionStep w.ctl.sessionName)
            { SessionID := field (Split (TrimSpace sessionOut) ',') 0
              SessionName := field (Split (TrimSpace sessionOut) ',') 1
              Sessions := []
              Windows := []
              ActiveWinID := []
              ActivePaneID := [] }, ?_, ?_, ?_, ?_, ?_⟩
          · exact (sessionLoop_frame _ _ _).2.2.1
          · exact (sessionLoop_frame _ _ _).2.2.2.1
          · exact (sessionLoop_frame _ _ _).2.2.2.2
          · intro so hso
            cases hso
            exact ⟨(sessionLoop_frame _ _ _).1, (sessionLoop_frame _ _ _).2.1⟩
          · have e1 := runTmux_ok hdm
            have e2 : runTmux t listSessionsArgs
                { w with calls := w.calls ++ [displayMessageArgs w.ctl.sessionName] } = _ :=
              runTmux_ok hls
            have e3 : runTmux t (listWindowsArgs w.ctl.sessionName)
                { w with calls := w.calls ++ [displayMessageArgs w.ctl.sessionName] ++
                  [listSessionsArgs] } = _ :=
              runTmux_ok (by simpa using hlw)
            simp only [RefreshLayout, e1, hlen, if_false, e2, e3, windowLoop_snd, loopStart,
              refreshCalls]
            simp
        | fail cause =>
          refine ⟨{ SessionID := field (Split (TrimSpace sessionOut) ',') 0
                    SessionName := field (Split (TrimSpace sessionOut) ',') 1
                    Sessions := []
                    Windows := []
                    ActiveWinID := []
                    ActivePaneID := [] }, rfl, rfl, rfl, ?_, ?_⟩
          · intro so hso
            cases hso
            exact ⟨rfl, rfl⟩
          · have e1 := runTmux_ok hdm
            have e2 : runTmux t listSessionsArgs
                { w with calls := w.calls ++ [displayMessageArgs w.ctl.sessionName] } = _ :=
              runTmux_fail hls
            have e3 : runTmux t (listWindowsArgs w.ctl.sessionName)
                { w with calls := w.calls ++ [displayMessageArgs w.ctl.sessionName] ++
                  [listSessionsArgs] } = _ :=
              runTmux_ok (by simpa using hlw)
            simp only [RefreshLayout, e1, hlen, if_false, e2, e3, windowLoop_snd, loopStart,
              refreshCalls]
            simp

theorem RefreshLayout_dm_fail (t : Tmux) (w : World) (cause : Str)
    (hdm : t w.calls (displayMessageArgs w.ctl.sessionName) = CmdResult.fail cause) :
    RefreshLayout t w =
      (some ("tmux command failed: ".toList ++ cause),
        { w with calls := w.calls ++ [displayMessageArgs w.ctl.sessionName] }) := by
  simp only [RefreshLayout, runTmux_fail hdm]

theorem RefreshLayout_parse_fail (t : Tmux) (w : World) (sessionOut : Str)
    (hdm : t w.calls (displayMessageArgs w.ctl.sessionName) = CmdResult.ok sessionOut)
    (hlen : (Split (TrimSpace sessionOut) ',').length < 2) :
    RefreshLayout t w =
      (some ("invalid session output: ".toList ++ sessionOut),
        { w with calls := w.calls ++ [displayMessageArgs w.ctl.sessionName] }) := by
  simp only [RefreshLayout, runTmux_ok hdm, hlen, if_true]

theorem RefreshLayout_lw_fail (t : Tmux) (w : World) (sessionOut cause : Str)
    (hdm : t w.calls (displayMessageArgs w.ctl.sessionName) = CmdResult.ok sessionOut)
    (hlen : ¬ (Split (TrimSpace sessionOut) ',').length < 2)
    (hlw : t (w.calls ++ [displayMessageArgs w.ctl.sessionName, listSessionsArgs])
      (listWindowsArgs w.ctl.sessionName) = CmdResult.fail cause) :
    RefreshLayout t w =
      (some ("tmux command failed: ".toList ++ cause),
        { w with calls := w.calls ++ refreshCalls w.ctl.sessionName }) := by
  have e1 := runTmux_ok hdm
  have e3 : runTmux t (listWindowsArgs w.ctl.sessionName)
      { w with calls := w.calls ++ [displayMessageArgs w.ctl.sessionName] ++
        [listSessionsArgs] } = _ :=
    runTmux_fail (by simpa using hlw)
  cases hls : t (w.calls ++ [displayMessageArgs w.ctl.sessionName]) listSessionsArgs with
  | ok sessionsOut =>
    have e2 : runTmux t listSessionsArgs
        { w with calls := w.calls ++ [displayMessageArgs w.ctl.sessionName] } = _ :=
      runTmux_ok hls
    simp only [RefreshLayout, e1, hlen, if_false, e2, e3]
    simp [refreshCalls]
  | fail cause2 =>
    have e2 : runTmux t listSessionsArgs
        { w with calls := w.calls ++ [displayMessageArgs w.ctl.sessionName] } = _ :=
      runTmux_fail hls
    simp only [RefreshLayout, e1, hlen, if_false, e2, e3]
    simp [refreshCalls]

theorem RefreshLayout_err (t : Tmux) (w : World) (h : windowLines t w = none) :
    ∃ err calls, RefreshLayout t w = (some err, { w with calls := calls }) := by
  unfold windowLines at h
  cases hdm : t w.calls (displayMessageArgs w.ctl.sessionName) with
  | fail cause => exact ⟨_, _, RefreshLayout_dm_fail t w cause hdm⟩
  | ok sessionOut =>
    simp only [hdm] at h
    by_cases hlen : (Split (TrimSpace sessionOut) ',').length < 2
    · exact ⟨_, _, RefreshLayout_parse_fail t w sessionOut hdm hlen⟩
    · simp only [hlen, if_false] at h
      cases hlw : t (w.calls ++ [displayMessageArgs w.ctl.sessionName, listSessionsArgs])
          (listWindowsArgs w.ctl.sessionName) with
      | ok windowsOut => simp [hlw] at h
      | fail cause => exact ⟨_, _, RefreshLayout_lw_fail t w sessionOut cause hdm hlen hlw⟩

theorem windowStep_mono (t : Tmux) (l : Layout) (w : World) (line : Str) (win : Window)
    (h : win ∈ l.Windows) : win ∈ (windowStep t (l, w) line).1.Windows := by
  by_cases hok : windowLineOK line
  · cases hr : t w.calls (listPanesArgs (windowID line)) with
    | ok out =>
      rw [windowStep_ok t l w line out hok hr]
      by_cases ha : windowLineActive line <;> simp [ha, h]
    | fail cause =>
      rw [windowStep_fail t l w line cause hok hr]
      by_cases ha : windowLineActive line <;> simp [ha, h]
  · rw [windowStep_skip t (l, w) line hok]
    exact h

theorem windowLoop_mono (t : Tmux) (lines : List Str) (l : Layout) (w : World) (win : Window)
    (h : win ∈ l.Windows) : win ∈ (lines.foldl (windowStep t) (l, w)).1.Windows := by
  induction lines generalizing l w with
  | nil => exact h
  | cons x xs ih =>
    rw [List.foldl_cons]
    exact ih _ _ (windowStep_mono t l w x win h)

/-- Frame of one iteration: the session fields are never touched. -/
theorem windowStep_frame (t : Tmux) (l : Layout) (w : World) (line : Str) :
    (windowStep t (l, w) line).1.SessionID = l.SessionID ∧
    (windowStep t (l, w) line).1.SessionName = l.SessionName ∧
    (windowStep t (l, w) line).1.Sessions = l.Sessions := by
  by_cases hok : windowLineOK line
  · cases hr : t w.calls (listPanesArgs (windowID line)) with
    | ok out =>
      rw [windowStep_ok t l w line out hok hr]
      by_cases ha : windowLineActive line <;> simp [ha]
    | fail cause =>
      rw [windowStep_fail t l w line cause hok hr]
      by_cases ha : windowLineActive line <;> simp [ha]
  · rw [windowStep_skip t (l, w) line hok]
    exact ⟨rfl, rfl, rfl⟩

theorem windowLoop_frame (t : Tmux) (lines : List Str) (l : Layout) (w : World) :
    (lines.foldl (windowStep t) (l, w)).1.SessionID = l.SessionID ∧
    (lines.foldl (windowStep t) (l, w)).1.SessionName = l.SessionName ∧
    (lines.foldl (windowStep t) (l, w)).1.Sessions = l.Sessions := by
  induction lines generalizing l w with
  | nil => exact ⟨rfl, rfl, rfl⟩
  | cons x xs ih =>
    rw [List.foldl_cons]
    obtain ⟨h1, h2, h3⟩ := windowStep_frame t l w x
    obtain ⟨k1, k2, k3⟩ := ih (windowStep t (l, w) x).1 (windowStep t (l, w) x).2
    exact ⟨k1.trans h1, k2.trans h2, k3.trans h3⟩

/-- The state of the loop over the window lines after the lines `ls`. -/
theorem windowLoop_eta (t : Tmux) (ls : List Str) (l : Layout) (w : World) :
    ls.foldl (windowStep t) (l, w) =
      ((ls.foldl (windowStep t) (l, w)).1, { w with calls := w.calls ++ loopCalls ls }) := by
  rw [← windowLoop_snd t ls l w]

/-- Every window of the loop result is an initial one or was built from a well-formed
line whose `list-panes` query succeeded. -/
theorem windowLoop_mem (t : Tmux) (lines : List Str) (l : Layout) (w : World) (win : Window)
    (h : win ∈ (lines.foldl (windowStep t) (l, w)).1.Windows) :
    win ∈ l.Windows ∨
      ∃ pre line post out, lines = pre ++ line :: post ∧ windowLineOK line ∧
        t (w.calls ++ loopCalls pre) (listPanesArgs (windowID line)) = CmdResult.ok out ∧
        win = windowOfLine line (panesOfOutput out) := by
  induction lines using List.reverseRecOn with
  | nil => exact Or.inl h
  | append_singleton ls x ih =>
    rw [List.foldl_append, List.foldl_cons, List.foldl_nil, windowLoop_eta t ls l w] at h
    have lift : (win ∈ (ls.foldl (windowStep t) (l, w)).1.Windows) →
        win ∈ l.Windows ∨
          ∃ pre line post out, ls ++ [x] = pre ++ line :: post ∧ windowLineOK line ∧
            t (w.calls ++ loopCalls pre) (listPanesArgs (windowID line)) = CmdResult.ok out ∧
            win = windowOfLine line (panesOfOutput out) := by
      intro hm
      rcases ih hm with h0 | ⟨pre, line, post, out, e, hok, hr, hw⟩
      · exact Or.inl h0
      · exact Or.inr ⟨pre, line, post ++ [x], out, by simp [e], hok, hr, hw⟩
    by_cases hok : windowLineOK x
    · cases hr : t (w.calls ++ loopCalls ls) (listPanesArgs (windowID x)) with
      | ok out =>
        rw [windowStep_ok t _ _ x out hok hr] at h
        have hm : win ∈ (ls.foldl (windowStep t) (l, w)).1.Windows ∨
            win = windowOfLine x (panesOfOutput out) := by
          by_cases ha : windowLineActive x <;> simpa [ha] using h
        rcases hm with hm | hm
        · exact lift hm
        · exact Or.inr ⟨ls, x, [], out, rfl, hok, hr, hm⟩
      | fail cause =>
        rw [windowStep_fail t _ _ x cause hok hr] at h
        apply lift
        by_cases ha : windowLineActive x <;> simpa [ha] using h
    · rw [windowStep_skip t _ x hok] at h
      exact lift h

/-- The window built from a well-formed line whose `list-panes` query succeeded is in
the loop result. -/
theorem windowLoop_mem_of_ok (t : Tmux) (pre post : List Str) (line : Str) (out : Str)
    (l : Layout) (w : World) (hok : windowLineOK line)
    (hr : t (w.calls ++ loopCalls pre) (listPanesArgs (windowID line)) = CmdResult.ok out) :
    windowOfLine line (panesOfOutput out) ∈
      ((pre ++ line :: post).foldl (windowStep t) (l, w)).1.Windows := by
  rw [List.foldl_append, List.foldl_cons, windowLoop_eta t pre l w,
    windowStep_ok t _ _ line out hok hr]
  apply windowLoop_mono
  by_cases ha : windowLineActive line <;> simp [ha]

/-- C1. If `RefreshLayout` returns an error, `GetLayout` afterwards returns the same
cached Layout as before the call (the whole Controller is as it was). -/
theorem RefreshLayout_error_keeps_cache (t : Tmux) (w : World) (err : Str)
    (h : (RefreshLayout t w).1 = some err) :
    GetLayout (RefreshLayout t w).2.ctl = GetLayout w.ctl := by
  cases hwl : windowLines t w with
  | none =>
    obtain ⟨e, calls, he⟩ := RefreshLayout_err t w hwl
    rw [he]
  | some lines =>
    obtain ⟨l1, _, _, _, _, he⟩ := RefreshLayout_ok t w lines hwl
    rw [he] at h
    cases h

/-- Witness for C1: `list-windows` fails (scenario 5), the refresh returns the error and
`GetLayout` still returns the Layout cached before. -/
theorem RefreshLayout_error_keeps_cache_witness :
    (RefreshLayout tmuxListWindowsFails cachedWorld).1 =
        some "tmux command failed: exit status 1".toList ∧
      GetLayout (RefreshLayout tmuxListWindowsFails cachedWorld).2.ctl = some cachedLayout :=
  ⟨by decide,
    RefreshLayout_error_keeps_cache tmuxListWindowsFails cachedWorld
      "tmux command failed: exit status 1".toList (by decide)⟩

theorem RefreshLayout_sessionName (t : Tmux) (w : World) :
    (RefreshLayout t w).2.ctl.sessionName = w.ctl.sessionName := by
  cases hwl : windowLines t w with
  | none =>
    obtain ⟨e, calls, he⟩ := RefreshLayout_err t w hwl
    rw [he]
  | some lines =>
    obtain ⟨l1, _, _, _, _, he⟩ := RefreshLayout_ok t w lines hwl
    rw [he]

/-- Every refresh starts with the `display-message` query on the bound session. -/
theorem RefreshLayout_calls_first (t : Tmux) (w : World) :
    ∃ rest, (RefreshLayout t w).2.calls =
      w.calls ++ displayMessageArgs w.ctl.sessionName :: rest := by
  cases hdm : t w.calls (displayMessageArgs w.ctl.sessionName) with
  | fail cause =>
    exact ⟨[], by rw [RefreshLayout_dm_fail t w cause hdm]⟩
  | ok sessionOut =>
    by_cases hlen : (Split (TrimSpace sessionOut) ',').length < 2
    · exact ⟨[], by rw [RefreshLayout_parse_fail t w sessionOut hdm hlen]⟩
    · cases hlw : t (w.calls ++ [displayMessageArgs w.ctl.sessionName, listSessionsArgs])
          (listWindowsArgs w.ctl.sessionName) with
      | fail cause =>
        refine ⟨[listSessionsArgs, listWindowsArgs w.ctl.sessionName], ?_⟩
        rw [RefreshLayout_lw_fail t w sessionOut cause hdm hlen hlw]
        simp [refreshCalls]
      | ok windowsOut =>
        have hwl : windowLines t w = some (Split (TrimSpace windowsOut) '\n') := by
          simp [windowLines, hdm, hlen, hlw]
        obtain ⟨l1, _, _, _, _, he⟩ := RefreshLayout_ok t w _ hwl
        refine ⟨[listSessionsArgs, listWindowsArgs w.ctl.sessionName] ++
          loopCalls (Split (TrimSpace windowsOut) '\n'), ?_⟩
        rw [he]
        simp [refreshCalls]

/-- When the `display-message` output has at least two fields, the refresh goes on to
`list-sessions` and to `list-windows` on the bound session. -/
theorem RefreshLayout_calls_queries (t : Tmux) (w : World) (sessionOut : Str)
    (hdm : t w.calls (displayMessageArgs w.ctl.sessionName) = CmdResult.ok sessionOut)
    (hlen : 2 ≤ (Split (TrimSpace sessionOut) ',').length) :
    ∃ rest, (RefreshLayout t w).2.calls =
      w.calls ++ refreshCalls w.ctl.sessionName ++ rest := by
  have hlen2 : ¬ (Split (TrimSpace sessionOut) ',').length < 2 := by omega
  cases hlw : t (w.calls ++ [displayMessageArgs w.ctl.sessionName, listSessionsArgs])
      (listWindowsArgs w.ctl.sessionName) with
  | fail cause =>
    refine ⟨[], ?_⟩
    rw [RefreshLayout_lw_fail t w sessionOut cause hdm hlen2 hlw]
    simp
  | ok windowsOut =>
    have hwl : windowLines t w = some (Split (TrimSpace windowsOut) '\n') := by
      simp [windowLines, hdm, hlen2, hlw]
    obtain ⟨l1, _, _, _, _, he⟩ := RefreshLayout_ok t w _ hwl
    exact ⟨loopCalls (Split (TrimSpace windowsOut) '\n'), by rw [he]⟩

/-- C5, as stated, fails: a `display-message` output of three fields is not exactly two
fields, yet `RefreshLayout` returns no error and publishes a Layout built from the first
two fields. -/
theorem RefreshLayout_three_fields_accepted :
    (Split (TrimSpace "$0,a,b\n".toList) ',').length = 3 ∧
      tmuxThreeFields freshWorld.calls (displayMessageArgs freshWorld.ctl.sessionName) =
        CmdResult.ok "$0,a,b\n".toList ∧
      (RefreshLayout tmuxThreeFields freshWorld).1 = none ∧
      (GetLayout (RefreshLayout tmuxThreeFields freshWorld).2.ctl).map
        (fun l => (l.SessionID, l.SessionName)) = some ("$0".toList, "a".toList) := by
  decide

/-- C5 (amended). When the trimmed `display-message` output splits on `,` into fewer
than two fields, `RefreshLayout` fails with the parse error
`invalid session output: <output>`, makes no further query and leaves the cache as it
was.  When it splits into two or more fields there is no parse error: the only error
left is a failing `list-windows`, and otherwise a Layout is published whose `SessionID`
and `SessionName` are the first two fields. -/
theorem RefreshLayout_session_fields (t : Tmux) (w : World) (sessionOut : Str)
    (hdm : t w.calls (displayMessageArgs w.ctl.sessionName) = CmdResult.ok sessionOut) :
    ((Split (TrimSpace sessionOut) ',').length < 2 →
      RefreshLayout t w =
        (some ("invalid session output: ".toList ++ sessionOut),
          { w with calls := w.calls ++ [displayMessageArgs w.ctl.sessionName] })) ∧
    (2 ≤ (Split (TrimSpace sessionOut) ',').length →
      (RefreshLayout t w).1 ≠ some ("invalid session output: ".toList ++ sessionOut) ∧
      ((RefreshLayout t w).1 = none →
        ∃ L, GetLayout (RefreshLayout t w).2.ctl = some L ∧
          L.SessionID = field (Split (TrimSpace sessionOut) ',') 0 ∧
          L.SessionName = field (Split (TrimSpace sessionOut) ',') 1)) := by
  refine ⟨fun hlen => RefreshLayout_parse_fail t w sessionOut hdm hlen, fun hlen => ?_⟩
  have hlen2 : ¬ (Split (TrimSpace sessionOut) ',').length < 2 := by omega
  cases hlw : t (w.calls ++ [displayMessageArgs w.ctl.sessionName, listSessionsArgs])
      (listWindowsArgs w.ctl.sessionName) with
  | fail cause =>
    rw [RefreshLayout_lw_fail t w sessionOut cause hdm hlen2 hlw]
    refine ⟨?_, fun h => by cases h⟩
    simp
  | ok windowsOut =>
    have hwl : windowLines t w = some (Split (TrimSpace windowsOut) '\n') := by
      simp [windowLines, hdm, hlen2, hlw]
    obtain ⟨l1, _, _, _, hs, he⟩ := RefreshLayout_ok t w _ hwl
    rw [he]
    refine ⟨by simp, fun _ => ⟨_, rfl, ?_, ?_⟩⟩
    · rw [(windowLoop_frame t _ l1 _).1]
      exact (hs sessionOut hdm).1
    · rw [(windowLoop_frame t _ l1 _).2.1]
      exact (hs sessionOut hdm).2

/-- Witness for C5 (amended): one field gives the parse error after a single invocation;
three fields give no parse error. -/
theorem RefreshLayout_session_fields_witness :
    RefreshLayout tmuxOneField cachedWorld =
        (some "invalid session output: $0\n".toList,
          { cachedWorld with calls := [displayMessageArgs "work".toList] }) ∧
      (RefreshLayout tmuxThreeFields cachedWorld).1 ≠
        some "invalid session output: $0,a,b\n".toList :=
  ⟨(RefreshLayout_session_fields tmuxOneField cachedWorld "$0\n".toList (by decide)).1
      (by decide),
    ((RefreshLayout_session_fields tmuxThreeFields cachedWorld "$0,a,b\n".toList
      (by decide)).2 (by decide)).1⟩

theorem mutationContract_of_eq (t : Tmux) (op : World → Option Str × World)
    (cmd : List Str) (w w1 : World)
    (hok : ∀ out, t w.calls cmd = CmdResult.ok out → op w = (none, (RefreshLayout t w1).2))
    (hfail : ∀ cause, t w.calls cmd = CmdResult.fail cause →
      op w = (some ("tmux command failed: ".toList ++ cause),
        { w with calls := w.calls ++ [cmd] })) :
    MutationContract t op cmd w w1 := by
  unfold MutationContract
  cases hr : t w.calls cmd with
  | ok out => simp [hok out hr]
  | fail cause => simp [hfail cause hr, GetLayout]

/-- C6. Each of `SelectPane`, `SelectWindow`, `SwitchSession`, `SplitPane`, `ClosePane`
and `NewWindow` satisfies the mutation contract: it returns an error if and only if its
own `tmux` command fails; when the command succeeds it returns success whatever the
follow-up `RefreshLayout` returns; when the command fails no refresh is attempted and
the cached Layout is unchanged. -/
theorem mutation_operations_contract (t : Tmux) (w : World) (paneID windowID sessionName : Str)
    (horizontal : Bool) :
    MutationContract t (SelectPane t paneID) ["select-pane".toList, "-t".toList, paneID] w
      { w with calls := w.calls ++ [["select-pane".toList, "-t".toList, paneID]] } ∧
    MutationContract t (SelectWindow t windowID)
      ["select-window".toList, "-t".toList, windowID] w
      { w with calls := w.calls ++ [["select-window".toList, "-t".toList, windowID]] } ∧
    MutationContract t (SwitchSession t sessionName)
      ["switch-client".toList, "-t".toList, sessionName] w
      { ctl := { w.ctl with sessionName := sessionName }
        calls := w.calls ++ [["switch-client".toList, "-t".toList, sessionName]] } ∧
    MutationContract t (SplitPane t horizontal)
      ["split-window".toList, "-t".toList, w.ctl.sessionName,
        if horizontal then "-h".toList else "-v".toList] w
      { w with calls := w.calls ++ [["split-window".toList, "-t".toList, w.ctl.sessionName,
        if horizontal then "-h".toList else "-v".toList]] } ∧
    MutationContract t (ClosePane t paneID) ["kill-pane".toList, "-t".toList, paneID] w
      { w with calls := w.calls ++ [["kill-pane".toList, "-t".toList, paneID]] } ∧
    MutationContract t (NewWindow t) ["new-window".toList, "-t".toList, w.ctl.sessionName] w
      { w with calls := w.calls ++ [["new-window".toList, "-t".toList, w.ctl.sessionName]] } := by
  refine ⟨?_, ?_, ?_, ?_, ?_, ?_⟩ <;> apply mutationContract_of_eq
  · intro out h; simp only [SelectPane, runTmux_ok h]
  · intro cause h; simp only [SelectPane, runTmux_fail h]
  · intro out h; simp only [SelectWindow, runTmux_ok h]
  · intro cause h; simp only [SelectWindow, runTmux_fail h]
  · intro out h; simp only [SwitchSession, runTmux_ok h]
  · intro cause h; simp only [SwitchSession, runTmux_fail h]
  · intro out h; simp only [SplitPane, runTmux_ok h]
  · intro cause h; simp only [SplitPane, runTmux_fail h]
  · intro out h; simp only [ClosePane, runTmux_ok h]
  · intro cause h; simp only [ClosePane, runTmux_fail h]
  · intro out h; simp only [NewWindow, runTmux_ok h]
  · intro cause h; simp only [NewWindow, runTmux_fail h]

/-- Witness for C6: `SelectPane` returns success although the follow-up refresh fails, and
a failing `kill-pane` leaves the Controller as it was. -/
theorem mutation_operations_contract_witness :
    (RefreshLayout tmuxListWindowsFails
        { cachedWorld with calls := [["select-pane".toList, "-t".toList, "%1".toList]] }).1 ≠
        none ∧
      (SelectPane tmuxListWindowsFails "%1".toList cachedWorld).1 = none ∧
      (ClosePane tmuxDown "%1".toList cachedWorld).2.ctl = cachedWorld.ctl :=
  ⟨by decide,
    ((mutation_operations_contract tmuxListWindowsFails cachedWorld "%1".toList [] []
      false).1.2.1 [] (by decide)).1,
    ((mutation_operations_contract tmuxDown cachedWorld "%1".toList [] []
      false).2.2.2.2.1.2.2 "exit status 1".toList (by decide)).2.2.1⟩

theorem succeeded_iff (r : CmdResult) : r.succeeded = true ↔ ∃ out, r = CmdResult.ok out := by
  cases r <;> simp [CmdResult.succeeded]

theorem scrollLoop_all_ok (t : Tmux) (command : Str) (n : Nat) (w : World)
    (h : ∀ i, i < n → ∃ out,
      t (w.calls ++ List.replicate i (sendKeysArgs w.ctl.sessionName command))
        (sendKeysArgs w.ctl.sessionName command) = CmdResult.ok out) :
    scrollLoop t command n w =
      (none, { w with calls := w.calls ++
        List.replicate n (sendKeysArgs w.ctl.sessionName command) }) := by
  induction n generalizing w with
  | zero => simp [scrollLoop]
  | succ n ih =>
    obtain ⟨out, h0⟩ := h 0 (Nat.succ_pos n)
    simp only [List.replicate_zero, List.append_nil] at h0
    rw [scrollLoop, runTmux_ok h0]
    simp only
    rw [ih]
    · simp [List.replicate_succ]
    · intro i hi
      obtain ⟨o, ho⟩ := h (i + 1) (by omega)
      exact ⟨o, by simpa [List.replicate_succ] using ho⟩

theorem scrollLoop_first_fail (t : Tmux) (command : Str) (n : Nat) (w : World) (j : Nat)
    (cause : Str) (hj : j < n)
    (hok : ∀ i, i < j → ∃ out,
      t (w.calls ++ List.replicate i (sendKeysArgs w.ctl.sessionName command))
        (sendKeysArgs w.ctl.sessionName command) = CmdResult.ok out)
    (hfail : t (w.calls ++ List.replicate j (sendKeysArgs w.ctl.sessionName command))
      (sendKeysArgs w.ctl.sessionName command) = CmdResult.fail cause) :
    scrollLoop t command n w =
      (some ("tmux command failed: ".toList ++ cause),
        { w with calls := w.calls ++
          List.replicate (j + 1) (sendKeysArgs w.ctl.sessionName command) }) := by
  induction n generalizing w j with
  | zero => omega
  | succ n ih =>
    cases j with
    | zero =>
      simp only [List.replicate_zero, List.append_nil] at hfail
      rw [scrollLoop, runTmux_fail hfail]
      simp
    | succ j =>
      obtain ⟨out, h0⟩ := hok 0 (Nat.succ_pos j)
      simp only [List.replicate_zero, List.append_nil] at h0
      rw [scrollLoop, runTmux_ok h0]
      simp only
      rw [ih _ j (by omega)]
      · simp [List.replicate_succ]
      · intro i hi
        obtain ⟨o, ho⟩ := hok (i + 1) (by omega)
        exact ⟨o, by simpa [List.replicate_succ] using ho⟩
      · simpa [List.replicate_succ] using hfail

theorem scrollContract_of_loop (t : Tmux) (scroll : Int → World → Option Str × World)
    (command : Str) (n : Nat) (w : World)
    (h : ∀ m : Nat, scroll (m : Int) w = scrollLoop t command m w) :
    ScrollContract t scroll (sendKeysArgs w.ctl.sessionName command) n w := by
  refine ⟨fun hall => ?_, fun k cause hk1 hkn hok hfail => ?_, ?_⟩
  · rw [h n]
    exact scrollLoop_all_ok t command n w (fun i hi => (succeeded_iff _).1 (hall i hi))
  · rw [h n]
    have := scrollLoop_first_fail t command n w (k - 1) cause (by omega)
      (fun i hi => (succeeded_iff _).1 (hok i hi)) hfail
    rwa [Nat.sub_add_cancel hk1] at this
  · have := h 0
    simpa [scrollLoop] using this

/-- C7. For every `n ≥ 0`, `ScrollUp n` issues the invocation
`send-keys -t <sessionName> -X scroll-up`, and `ScrollDown n` the invocation
`send-keys -t <sessionName> -X scroll-down`, exactly `n` times and returns success when
every invocation succeeds; if the `k`-th invocation is the first to fail it issues
exactly `k` invocations and returns that error; for `n = 0` it issues no invocation and
returns success. -/
theorem scroll_contract (t : Tmux) (n : Nat) (w : World) :
    ScrollContract t (ScrollUp t)
        ["send-keys".toList, "-t".toList, w.ctl.sessionName, "-X".toList, "scroll-up".toList]
        n w ∧
      ScrollContract t (ScrollDown t)
        ["send-keys".toList, "-t".toList, w.ctl.sessionName, "-X".toList,
          "scroll-down".toList]
        n w := by
  constructor
  · exact scrollContract_of_loop t _ "scroll-up".toList n w (fun m => by simp [ScrollUp])
  · exact scrollContract_of_loop t _ "scroll-down".toList n w (fun m => by simp [ScrollDown])

/-- Witness for C7: against a `tmux` that fails from its third invocation on, `ScrollUp 5`
makes exactly three invocations of `send-keys -t work -X scroll-up` and returns the
error, `ScrollDown 2` makes exactly two of `send-keys -t work -X scroll-down` and
succeeds. -/
theorem scroll_contract_witness :
    ScrollUp (tmuxFailsAfter 2) 5 freshWorld =
        (some "tmux command failed: exit status 1".toList,
          { freshWorld with calls :=
              [["send-keys".toList, "-t".toList, "work".toList, "-X".toList,
                  "scroll-up".toList],
                ["send-keys".toList, "-t".toList, "work".toList, "-X".toList,
                  "scroll-up".toList],
                ["send-keys".toList, "-t".toList, "work".toList, "-X".toList,
                  "scroll-up".toList]] }) ∧
      ScrollDown (tmuxFailsAfter 2) 2 freshWorld =
        (none,
          { freshWorld with calls :=
              [["send-keys".toList, "-t".toList, "work".toList, "-X".toList,
                  "scroll-down".toList],
                ["send-keys".toList, "-t".toList, "work".toList, "-X".toList,
                  "scroll-down".toList]] }) :=
  ⟨(scroll_contract (tmuxFailsAfter 2) 5 freshWorld).1.2.1 3 "exit status 1".toList
      (by decide) (by decide) (by decide) (by decide),
    (scroll_contract (tmuxFailsAfter 2) 2 freshWorld).2.1 (by decide)⟩

/-- C8. When the `switch-client -t name` command succeeds, `SwitchSession name` rebinds
`sessionName` to `name`, and the refresh that follows issues
`display-message -t name -p #{session_id},#{session_name}` and, once that query
yields two fields, `list-sessions` and then
`list-windows -t name -F #{window_id},#{window_name},#{window_index},#{window_active}`;
when the `switch-client` command fails, `sessionName` is left unchanged. -/
theorem SwitchSession_rebinds (t : Tmux) (w : World) (name : Str) :
    (∀ out, t w.calls ["switch-client".toList, "-t".toList, name] = CmdResult.ok out →
      (SwitchSession t name w).2.ctl.sessionName = name ∧
      (∃ rest, (SwitchSession t name w).2.calls =
        w.calls ++ [["switch-client".toList, "-t".toList, name]] ++
          ["display-message".toList, "-t".toList, name, "-p".toList,
            "#\x7bsession_id\x7d,#\x7bsession_name\x7d".toList] :: rest) ∧
      (∀ sessionOut,
        t (w.calls ++ [["switch-client".toList, "-t".toList, name]])
          ["display-message".toList, "-t".toList, name, "-p".toList,
            "#\x7bsession_id\x7d,#\x7bsession_name\x7d".toList] =
            CmdResult.ok sessionOut →
        2 ≤ (Split (TrimSpace sessionOut) ',').length →
        ∃ rest, (SwitchSession t name w).2.calls =
          w.calls ++ [["switch-client".toList, "-t".toList, name]] ++
            [["display-message".toList, "-t".toList, name, "-p".toList,
            "#\x7bsession_id\x7d,#\x7bsession_name\x7d".toList],
             ["list-sessions".toList, "-F".toList,
            ("#\x7bsession_id\x7d,#\x7bsession_name\x7d,#\x7bsession_windows\x7d," ++
              "#\x7bsession_attached\x7d").toList],
             ["list-windows".toList, "-t".toList, name, "-F".toList,
            ("#\x7bwindow_id\x7d,#\x7bwindow_name\x7d,#\x7bwindow_index\x7d," ++
              "#\x7bwindow_active\x7d").toList]] ++ rest)) ∧
    (∀ cause, t w.calls ["switch-client".toList, "-t".toList, name] = CmdResult.fail cause →
      (SwitchSession t name w).2.ctl.sessionName = w.ctl.sessionName) := by
  constructor
  · intro out h
    have e : SwitchSession t name w =
        (none, (RefreshLayout t
          { ctl := { w.ctl with sessionName := name }
            calls := w.calls ++ [["switch-client".toList, "-t".toList, name]] }).2) := by
      simp only [SwitchSession, runTmux_ok h]
    rw [e]
    refine ⟨RefreshLayout_sessionName t _, RefreshLayout_calls_first t _, ?_⟩
    intro sessionOut hdm hlen
    exact RefreshLayout_calls_queries t
      { ctl := { w.ctl with sessionName := name }
        calls := w.calls ++ [["switch-client".toList, "-t".toList, name]] } sessionOut hdm hlen
  · intro cause h
    simp only [SwitchSession, runTmux_fail h]

/-- Witness for C8: switching to `other` rebinds the session name and the refresh issues
`display-message -t other`, `list-sessions` and `list-windows -t other`; when
`switch-client` fails the name stays `work`. -/
theorem SwitchSession_rebinds_witness :
    (SwitchSession tmuxOther "other".toList freshWorld).2.ctl.sessionName = "other".toList ∧
      (∃ rest, (SwitchSession tmuxOther "other".toList freshWorld).2.calls =
        freshWorld.calls ++ [["switch-client".toList, "-t".toList, "other".toList]] ++
          [["display-message".toList, "-t".toList, "other".toList, "-p".toList,
            "#\x7bsession_id\x7d,#\x7bsession_name\x7d".toList],
           ["list-sessions".toList, "-F".toList,
            ("#\x7bsession_id\x7d,#\x7bsession_name\x7d,#\x7bsession_windows\x7d," ++
              "#\x7bsession_attached\x7d").toList],
           ["list-windows".toList, "-t".toList, "other".toList, "-F".toList,
            ("#\x7bwindow_id\x7d,#\x7bwindow_name\x7d,#\x7bwindow_index\x7d," ++
              "#\x7bwindow_active\x7d").toList]] ++ rest) ∧
      (SwitchSession tmuxDown "other".toList freshWorld).2.ctl.sessionName = "work".toList :=
  ⟨((SwitchSession_rebinds tmuxOther freshWorld "other".toList).1 [] (by decide)).1,
    ((SwitchSession_rebinds tmuxOther freshWorld "other".toList).1 [] (by decide)).2.2
      "$1,other\n".toList (by decide) (by decide),
    (SwitchSession_rebinds tmuxDown freshWorld "other".toList).2 "exit status 1".toList
      (by decide)⟩

theorem RefreshLayout_published (t : Tmux) (w : World) (lines : List Str)
    (h : windowLines t w = some lines) :
    ∃ l1 : Layout, l1.Windows = [] ∧ l1.ActiveWinID = [] ∧ l1.ActivePaneID = [] ∧
      (RefreshLayout t w).1 = none ∧
      GetLayout (RefreshLayout t w).2.ctl =
        some (lines.foldl (windowStep t) (l1, loopStart w)).1 := by
  obtain ⟨l1, h1, h2, h3, _, he⟩ := RefreshLayout_ok t w lines h
  exact ⟨l1, h1, h2, h3, by rw [he], by rw [he]; rfl⟩

/-- A refresh that returns no error reached its loop over the window lines. -/
theorem windowLines_of_success (t : Tmux) (w : World) (h : (RefreshLayout t w).1 = none) :
    ∃ lines, windowLines t w = some lines := by
  cases hwl : windowLines t w with
  | some lines => exact ⟨lines, rfl⟩
  | none =>
    obtain ⟨e, calls, he⟩ := RefreshLayout_err t w hwl
    rw [he] at h
    cases h

/-- C10. In a refresh that reaches its loop over the window lines, for a well-formed
window line whose `list-panes` query answers `panesOut`: the refresh returns success and
the published `Windows` contain the record of that window, whose `Panes` are exactly the
panes built from the lines of `panesOut` that split into at least 9 fields, one per
line and in output order; lines with fewer fields are skipped. -/
theorem short_pane_lines_skipped (t : Tmux) (w : World) (pre post : List Str)
    (line panesOut : Str)
    (hlines : windowLines t w = some (pre ++ line :: post))
    (hline : windowLineOK line)
    (hpanes : panesResult t w pre line = CmdResult.ok panesOut) :
    (RefreshLayout t w).1 = none ∧
      ∃ L, GetLayout (RefreshLayout t w).2.ctl = some L ∧
        windowOfLine line
          (((paneLines panesOut).filter (fun pl => decide (paneLineOK pl))).map paneOfLine) ∈
            L.Windows := by
  obtain ⟨l1, _, _, _, hnone, hget⟩ := RefreshLayout_published t w _ hlines
  refine ⟨hnone, _, hget, ?_⟩
  exact windowLoop_mem_of_ok t pre post line panesOut l1 (loopStart w) hline
    (by simpa [panesResult, loopStart] using hpanes)

/-- Witness for C10: scenario 4 of the specification; only pane `%2` is present and the
refresh succeeds. -/
theorem short_pane_lines_skipped_witness :
    (RefreshLayout tmuxShortPaneLine freshWorld).1 = none ∧
      (∃ L, GetLayout (RefreshLayout tmuxShortPaneLine freshWorld).2.ctl = some L ∧
        windowOfLine "@1,main,0,1".toList
          (((paneLines "%1,0,1,80,24,0,0,bash\n%2,1,0,80,24,0,0,bash,title\n".toList).filter
            (fun pl => decide (paneLineOK pl))).map paneOfLine) ∈ L.Windows) ∧
      ((paneLines "%1,0,1,80,24,0,0,bash\n%2,1,0,80,24,0,0,bash,title\n".toList).filter
          (fun pl => decide (paneLineOK pl))).map paneOfLine =
        [{ ID := "%2".toList, Index := 1, Active := false, Width := 80, Height := 24,
           Top := 0, Left := 0, Command := "bash".toList, Title := "title".toList }] :=
  ⟨(short_pane_lines_skipped tmuxShortPaneLine freshWorld [] [] "@1,main,0,1".toList
      "%1,0,1,80,24,0,0,bash\n%2,1,0,80,24,0,0,bash,title\n".toList
      (by decide) (by decide) (by decide)).1,
    (short_pane_lines_skipped tmuxShortPaneLine freshWorld [] [] "@1,main,0,1".toList
      "%1,0,1,80,24,0,0,bash\n%2,1,0,80,24,0,0,bash,title\n".toList
      (by decide) (by decide) (by decide)).2,
    by decide⟩

theorem windowStep_length_le (t : Tmux) (l : Layout) (w : World) (line : Str) :
    (windowStep t (l, w) line).1.Windows.length ≤
      l.Windows.length + ([line].filter (fun x => decide (windowLineOK x))).length := by
  by_cases hok : windowLineOK line
  · cases hr : t w.calls (listPanesArgs (windowID line)) with
    | ok out =>
      rw [windowStep_ok t l w line out hok hr]
      by_cases ha : windowLineActive line <;> simp [ha, hok]
    | fail cause =>
      rw [windowStep_fail t l w line cause hok hr]
      by_cases ha : windowLineActive line <;> simp [ha, hok]
  · rw [windowStep_skip t (l, w) line hok]
    simp

theorem windowLoop_length_le (t : Tmux) (lines : List Str) (l : Layout) (w : World) :
    (lines.foldl (windowStep t) (l, w)).1.Windows.length ≤
      l.Windows.length + (lines.filter (fun x => decide (windowLineOK x))).length := by
  induction lines generalizing l w with
  | nil => simp
  | cons x xs ih =>
    rw [List.foldl_cons]
    have h1 := ih (windowStep t (l, w) x).1 (windowStep t (l, w) x).2
    have h2 := windowStep_length_le t l w x
    have h3 : (List.filter (fun x => decide (windowLineOK x)) (x :: xs)).length =
        ([x].filter (fun x => decide (windowLineOK x))).length +
          (xs.filter (fun x => decide (windowLineOK x))).length := by
      rw [← List.length_append, ← List.filter_append]
      rfl
    rw [h3]
    exact le_trans h1 (by omega)

theorem windowStep_fail_windows (t : Tmux) (l : Layout) (w : World) (line cause : Str)
    (h : windowLineOK line)
    (hf : t w.calls (listPanesArgs (windowID line)) = CmdResult.fail cause) :
    (windowStep t (l, w) line).1.Windows = l.Windows := by
  rw [windowStep_fail t l w line cause h hf]
  by_cases ha : windowLineActive line <;> simp [ha]

theorem windowLoop_length_fail (t : Tmux) (pre post : List Str) (line cause : Str)
    (l : Layout) (w : World) (hline : windowLineOK line)
    (hf : t (w.calls ++ loopCalls pre) (listPanesArgs (windowID line)) = CmdResult.fail cause) :
    ((pre ++ line :: post).foldl (windowStep t) (l, w)).1.Windows.length ≤
      l.Windows.length + (pre.filter (fun x => decide (windowLineOK x))).length +
        (post.filter (fun x => decide (windowLineOK x))).length := by
  rw [List.foldl_append, List.foldl_cons, windowLoop_eta t pre l w]
  have h1 := windowStep_fail_windows t (pre.foldl (windowStep t) (l, w)).1
    { w with calls := w.calls ++ loopCalls pre } line cause hline hf
  have h2 := windowLoop_length_le t post
    (windowStep t ((pre.foldl (windowStep t) (l, w)).1,
      { w with calls := w.calls ++ loopCalls pre }) line).1
    (windowStep t ((pre.foldl (windowStep t) (l, w)).1,
      { w with calls := w.calls ++ loopCalls pre }) line).2
  rw [h1] at h2
  have h3 := windowLoop_length_le t pre l w
  exact le_trans h2 (by omega)

/-- C2, as stated, fails: the refresh succeeds, the line `@1,main,0,1` is well formed and
its `list-panes` query fails, yet the published `Windows` are empty. -/
theorem failed_list_panes_window_missing :
    windowLines tmuxListPanesFails freshWorld = some ["@1,main,0,1".toList] ∧
      windowLineOK "@1,main,0,1".toList ∧
      panesResult tmuxListPanesFails freshWorld [] "@1,main,0,1".toList =
        CmdResult.fail "exit status 1".toList ∧
      (RefreshLayout tmuxListPanesFails freshWorld).1 = none ∧
      (GetLayout (RefreshLayout tmuxListPanesFails freshWorld).2.ctl).map Layout.Windows =
        some [] := by
  decide

/-- C2 (amended). In a successful refresh, a well-formed window line whose `list-panes`
query fails adds no record to the published `Windows`: every published record was built
from a line at another position, one whose `list-panes` query succeeded, and there are
fewer records than well-formed window lines. -/
theorem failed_list_panes_drops_window (t : Tmux) (w : World) (pre post : List Str)
    (line cause : Str)
    (hlines : windowLines t w = some (pre ++ line :: post))
    (hline : windowLineOK line)
    (hpanes : panesResult t w pre line = CmdResult.fail cause) :
    (RefreshLayout t w).1 = none ∧
      ∃ L, GetLayout (RefreshLayout t w).2.ctl = some L ∧
        (∀ win ∈ L.Windows, ∃ pre2 line2 post2 out,
          pre ++ line :: post = pre2 ++ line2 :: post2 ∧ pre2.length ≠ pre.length ∧
          windowLineOK line2 ∧ panesResult t w pre2 line2 = CmdResult.ok out ∧
          win = windowOfLine line2
            (((paneLines out).filter (fun pl => decide (paneLineOK pl))).map paneOfLine)) ∧
        L.Windows.length <
          ((pre ++ line :: post).filter (fun x => decide (windowLineOK x))).length := by
  obtain ⟨l1, hw0, _, _, hnone, hget⟩ := RefreshLayout_published t w _ hlines
  refine ⟨hnone, _, hget, ?_, ?_⟩
  · intro win hwin
    rcases windowLoop_mem t _ l1 (loopStart w) win hwin with h0 | ⟨pre2, line2, post2, out, e, hok2, hr, hw⟩
    · rw [hw0] at h0
      cases h0
    · have hr2 : panesResult t w pre2 line2 = CmdResult.ok out := by
        simpa [panesResult, loopStart] using hr
      refine ⟨pre2, line2, post2, out, e, ?_, hok2, hr2, hw⟩
      intro hlen
      obtain ⟨e1, e2⟩ := List.append_inj e hlen.symm
      cases e2
      subst e1
      rw [hpanes] at hr2
      cases hr2
  · have h := windowLoop_length_fail t pre post line cause l1 (loopStart w) hline
      (by simpa [panesResult, loopStart] using hpanes)
    rw [hw0] at h
    simp only [List.filter_append, List.length_append, List.filter_cons, hline, decide_True,
      if_true, List.length_cons]
    simp only [List.length_nil, Nat.zero_add] at h
    omega

/-- Witness for C2 (amended): of the window lines `@1` and `@2`, the first has a failing
`list-panes` query; only window `@2` is published. -/
theorem failed_list_panes_drops_window_witness :
    ((RefreshLayout tmuxFirstWindowFails freshWorld).1 = none ∧
      ∃ L, GetLayout (RefreshLayout tmuxFirstWindowFails freshWorld).2.ctl = some L ∧
        (∀ win ∈ L.Windows, ∃ pre2 line2 post2 out,
          [] ++ "@1,main,0,1".toList :: ["@2,logs,1,0".toList] = pre2 ++ line2 :: post2 ∧
          pre2.length ≠ ([] : List Str).length ∧
          windowLineOK line2 ∧
          panesResult tmuxFirstWindowFails freshWorld pre2 line2 = CmdResult.ok out ∧
          win = windowOfLine line2
            (((paneLines out).filter (fun pl => decide (paneLineOK pl))).map paneOfLine)) ∧
        L.Windows.length <
          (([] ++ "@1,main,0,1".toList :: ["@2,logs,1,0".toList]).filter
            (fun x => decide (windowLineOK x))).length) ∧
      (GetLayout (RefreshLayout tmuxFirstWindowFails freshWorld).2.ctl).map
        (fun l => l.Windows.map Window.ID) = some ["@2".toList] :=
  ⟨failed_list_panes_drops_window tmuxFirstWindowFails freshWorld [] ["@2,logs,1,0".toList]
      "@1,main,0,1".toList "exit status 1".toList (by decide) (by decide) (by decide),
    by decide⟩

theorem length_le_byteLen (s : Str) : s.length ≤ byteLen s := by
  induction s with
  | nil => simp [byteLen]
  | cons c cs ih =>
    have hc : 1 ≤ c.utf8Size := Char.utf8Size_pos c
    simp only [byteLen, List.map_cons, List.sum_cons, List.length_cons] at ih ⊢
    omega

theorem atoiDigits_lt (s : Str) (n m : Nat) (h : atoiDigits n s = some m) :
    m < (n + 1) * 10 ^ s.length := by
  induction s generalizing n with
  | nil =>
    simp only [atoiDigits, Option.some.injEq] at h
    subst h
    simp
  | cons c cs ih =>
    unfold atoiDigits at h
    split_ifs at h with hd
    have := ih _ h
    rw [List.length_cons, pow_succ]
    have h2 : n * 10 + (c.toNat - 48) + 1 ≤ (n + 1) * 10 := by omega
    calc m < (n * 10 + (c.toNat - 48) + 1) * 10 ^ cs.length := this
      _ ≤ ((n + 1) * 10) * 10 ^ cs.length := Nat.mul_le_mul_right _ h2
      _ = (n + 1) * (10 ^ cs.length * 10) := by ring

theorem ParseInt_range (s : Str) :
    -(2 ^ 63) ≤ (ParseInt s).1 ∧ (ParseInt s).1 ≤ 2 ^ 63 - 1 := by
  cases s with
  | nil => simp [ParseInt]
  | cons c0 tl =>
    simp only [ParseInt]
    generalize ParseUint (if c0 = '+' ∨ c0 = '-' then tl else c0 :: tl) = r
    obtain ⟨un, e⟩ := r
    rcases e with _ | _ | _
    · by_cases hneg : c0 = '-' <;> simp [hneg] <;> split_ifs <;> simp <;> omega
    · simp
    · by_cases hneg : c0 = '-' <;> simp [hneg] <;> split_ifs <;> simp <;> omega

theorem ParseInt_nonneg (s : Str) (h : s.head? ≠ some '-') : 0 ≤ (ParseInt s).1 := by
  cases s with
  | nil => simp [ParseInt]
  | cons c0 tl =>
    have hneg : ¬ c0 = '-' := by simpa using h
    simp only [ParseInt]
    generalize ParseUint (if c0 = '+' ∨ c0 = '-' then tl else c0 :: tl) = r
    obtain ⟨un, e⟩ := r
    rcases e with _ | _ | _
    · simp [hneg]
      split_ifs <;> simp
    · simp
    · simp [hneg]
      split_ifs <;> simp

/-- The fast path of `strconv.Atoi` on at most 18 characters. -/
theorem atoiDigits_lt18 (s : Str) (n : Nat) (hlen : s.length ≤ 18)
    (h : atoiDigits 0 s = some n) : n < 10 ^ 18 := by
  have hlt := atoiDigits_lt s 0 n h
  have h10 : (10 : Nat) ^ s.length ≤ 10 ^ 18 := Nat.pow_le_pow_right (by decide) hlen
  simp only [Nat.zero_add, Nat.one_mul] at hlt
  omega

/-- The value of `strconv.Atoi` fits the 64-bit `int`. -/
theorem atoiVal_range (s : Str) : -(2 ^ 63) ≤ atoiVal s ∧ atoiVal s ≤ 2 ^ 63 - 1 := by
  cases s with
  | nil => exact ParseInt_range _
  | cons c0 tl =>
    simp only [atoiVal, Atoi]
    by_cases hlen : byteLen (c0 :: tl) < 19
    · have hl := length_le_byteLen (c0 :: tl)
      simp only [List.length_cons] at hl
      have hs1 : (if decide (c0 = '-' ∨ c0 = '+') = true then tl else c0 :: tl).length ≤ 18 := by
        split_ifs
        · omega
        · simp only [List.length_cons]; omega
      simp only [hlen, if_true]
      generalize (if decide (c0 = '-' ∨ c0 = '+') = true then tl else c0 :: tl) = s1 at hs1 ⊢
      by_cases hsig : (decide (c0 = '-' ∨ c0 = '+') && decide (s1.length < 1)) = true
      · rw [if_pos hsig]
        simp
      · rw [if_neg hsig]
        cases hn : atoiDigits 0 s1 with
        | none => simp
        | some n =>
          have hn18 := atoiDigits_lt18 s1 n hs1 hn
          by_cases hneg : c0 = '-'
          · simp only [hneg, if_true, Bool.false_eq_true, if_false]
            constructor <;> omega
          · simp only [hneg, if_false, Bool.false_eq_true]
            constructor <;> omega
    · simp only [hlen, if_false]
      exact ParseInt_range _

/-- The value of `strconv.Atoi` is negative only for a text that starts with `-`. -/
theorem atoiVal_nonneg (s : Str) (h : s.head? ≠ some '-') : 0 ≤ atoiVal s := by
  cases s with
  | nil => exact ParseInt_nonneg _ h
  | cons c0 tl =>
    have hneg : ¬ c0 = '-' := by simpa using h
    simp only [atoiVal, Atoi]
    by_cases hlen : byteLen (c0 :: tl) < 19
    · simp only [hlen, if_true]
      generalize (if decide (c0 = '-' ∨ c0 = '+') = true then tl else c0 :: tl) = s1
      by_cases hsig : (decide (c0 = '-' ∨ c0 = '+') && decide (s1.length < 1)) = true
      · rw [if_pos hsig]
      · rw [if_neg hsig]
        cases hn : atoiDigits 0 s1 with
        | none => simp
        | some n =>
          simp only [hneg, if_false, Bool.false_eq_true]
          omega
    · simp only [hlen, if_false]
      exact ParseInt_nonneg _ h

theorem atoiField_atoiVal (text : Str) : atoiField text (atoiVal text) :=
  ⟨rfl, (atoiVal_range text).1, (atoiVal_range text).2, atoiVal_nonneg text⟩

/-- C9, as stated, fails: when the width field of a pane line is the text `-80`, the
refresh succeeds and publishes a pane whose `Width` is `-80`. -/
theorem negative_width_published :
    (RefreshLayout tmuxNegativeWidth freshWorld).1 = none ∧
      GetLayout (RefreshLayout tmuxNegativeWidth freshWorld).2.ctl = some negativeWidthLayout ∧
      ∃ win ∈ negativeWidthLayout.Windows, ∃ p ∈ win.Panes, p.Width < 0 := by
  decide

/-- C9 (amended). For every Layout published by `RefreshLayout`, every pane of every
window was built from a well-formed pane line of the `list-panes` answer for a window
line, and its `Index`, `Width`, `Height`, `Top` and `Left` are the `strconv.Atoi` values
of fields 1, 3, 4, 5 and 6 of that line: 64-bit integers, non-negative whenever the text
of the field does not start with `-`. -/
theorem pane_geometry_from_atoi (t : Tmux) (w : World) (L : Layout)
    (hok : (RefreshLayout t w).1 = none)
    (hL : GetLayout (RefreshLayout t w).2.ctl = some L) :
    ∀ win ∈ L.Windows, ∀ p ∈ win.Panes,
      ∃ pre line post panesOut paneLine,
        windowLines t w = some (pre ++ line :: post) ∧
        panesResult t w pre line = CmdResult.ok panesOut ∧
        paneLine ∈ paneLines panesOut ∧ paneLineOK paneLine ∧
        atoiField (field (Split paneLine ',') 1) p.Index ∧
        atoiField (field (Split paneLine ',') 3) p.Width ∧
        atoiField (field (Split paneLine ',') 4) p.Height ∧
        atoiField (field (Split paneLine ',') 5) p.Top ∧
        atoiField (field (Split paneLine ',') 6) p.Left := by
  obtain ⟨lines, hlines⟩ := windowLines_of_success t w hok
  obtain ⟨l1, hw0, _, _, _, hget⟩ := RefreshLayout_published t w _ hlines
  rw [hget, Option.some.injEq] at hL
  subst hL
  intro win hwin p hp
  rcases windowLoop_mem t _ l1 (loopStart w) win hwin with h0 | ⟨pre, line, post, out, e, _, hr, hw⟩
  · rw [hw0] at h0
    cases h0
  · subst hw
    have hp2 : p ∈ panesOfOutput out := hp
    simp only [panesOfOutput, List.mem_map, List.mem_filter, decide_eq_true_eq] at hp2
    obtain ⟨paneLine, ⟨hmem, hpl⟩, rfl⟩ := hp2
    refine ⟨pre, line, post, out, paneLine, by rw [hlines, e],
      by simpa [panesResult, loopStart] using hr, hmem, hpl, ?_, ?_, ?_, ?_, ?_⟩ <;>
      exact atoiField_atoiVal _

/-- Witness for C9 (amended): the pane whose width text is `-80`. -/
theorem pane_geometry_from_atoi_witness :
    ∃ pre line post panesOut paneLine,
      windowLines tmuxNegativeWidth freshWorld = some (pre ++ line :: post) ∧
      panesResult tmuxNegativeWidth freshWorld pre line = CmdResult.ok panesOut ∧
      paneLine ∈ paneLines panesOut ∧ paneLineOK paneLine ∧
      atoiField (field (Split paneLine ',') 1) negativeWidthPane.Index ∧
      atoiField (field (Split paneLine ',') 3) negativeWidthPane.Width ∧
      atoiField (field (Split paneLine ',') 4) negativeWidthPane.Height ∧
      atoiField (field (Split paneLine ',') 5) negativeWidthPane.Top ∧
      atoiField (field (Split paneLine ',') 6) negativeWidthPane.Left :=
  pane_geometry_from_atoi tmuxNegativeWidth freshWorld negativeWidthLayout
    (by decide) (by decide) negativeWidthWindow (by decide) negativeWidthPane (by decide)

theorem lastActiveID_cons (cur : Str) (p : Pane) (ps : List Pane) :
    lastActiveID cur (p :: ps) = lastActiveID (if p.Active then p.ID else cur) ps := by
  simp [lastActiveID]

theorem lastActiveID_cases (cur : Str) (panes : List Pane) :
    lastActiveID cur panes = cur ∨
      ∃ p ∈ panes, p.Active = true ∧ p.ID = lastActiveID cur panes := by
  induction panes generalizing cur with
  | nil => exact Or.inl rfl
  | cons p ps ih =>
    rw [lastActiveID_cons]
    rcases ih (if p.Active then p.ID else cur) with h | ⟨q, hq, hqa, hqid⟩
    · by_cases hp : p.Active = true
      · right
        refine ⟨p, List.mem_cons_self _ _, hp, ?_⟩
        rw [h]
        simp [hp]
      · left
        rw [h]
        simp [hp]
    · exact Or.inr ⟨q, List.mem_cons_of_mem _ hq, hqa, hqid⟩

theorem windowStep_paneInv (t : Tmux) (l : Layout) (w : World) (line : Str)
    (h : PaneInv l) : PaneInv (windowStep t (l, w) line).1 := by
  by_cases hok : windowLineOK line
  · cases hr : t w.calls (listPanesArgs (windowID line)) with
    | fail cause =>
      rw [windowStep_fail t l w line cause hok hr]
      by_cases ha : windowLineActive line
      · simpa [ha, PaneInv] using h
      · simpa [ha] using h
    | ok out =>
      rw [windowStep_ok t l w line out hok hr]
      by_cases ha : windowLineActive line
      · simp only [ha, if_true]
        rcases lastActiveID_cases l.ActivePaneID (panesOfOutput out) with hc | ⟨p, hp, hpa, hpid⟩
        · rcases h with h | ⟨win, hwin, hwa, p, hp, hpa, hpid⟩
          · exact Or.inl (hc.trans h)
          · right
            exact ⟨win, by simp [hwin], hwa, p, hp, hpa, by simp only [hc, hpid]⟩
        · right
          refine ⟨windowOfLine line (panesOfOutput out), by simp, ?_, p, hp, hpa, hpid⟩
          simp [windowOfLine, ha]
      · simp only [ha, if_false]
        rcases h with h | ⟨win, hwin, hwa, p, hp, hpa, hpid⟩
        · exact Or.inl h
        · exact Or.inr ⟨win, by simp [hwin], hwa, p, hp, hpa, hpid⟩
  · rw [windowStep_skip t (l, w) line hok]
    exact h

theorem windowLoop_paneInv (t : Tmux) (lines : List Str) (l : Layout) (w : World)
    (h : PaneInv l) : PaneInv (lines.foldl (windowStep t) (l, w)).1 := by
  induction lines generalizing l w with
  | nil => exact h
  | cons x xs ih =>
    rw [List.foldl_cons]
    exact ih _ _ (windowStep_paneInv t l w x h)

theorem windowLoop_paneWinInv (t : Tmux) (lines : List Str) (l : Layout) (w : World)
    (hinv : PaneWinInv l)
    (hcur : l.ActivePaneID = [] ∨
      lines.filter (fun x => decide (windowLineOK x ∧ windowLineActive x)) = [])
    (hone : (lines.filter (fun x => decide (windowLineOK x ∧ windowLineActive x))).length ≤ 1) :
    PaneWinInv (lines.foldl (windowStep t) (l, w)).1 := by
  induction lines generalizing l w with
  | nil => exact hinv
  | cons x xs ih =>
    rw [List.foldl_cons]
    by_cases hok : windowLineOK x
    · by_cases ha : windowLineActive x
      · -- the one active line: nothing before it set the pane id, nothing after is active
        have hfx : (x :: xs).filter (fun x => decide (windowLineOK x ∧ windowLineActive x)) =
            x :: xs.filter (fun x => decide (windowLineOK x ∧ windowLineActive x)) := by
          simp [hok, ha]
        rw [hfx] at hcur hone
        have hc0 : l.ActivePaneID = [] := by
          rcases hcur with h | h
          · exact h
          · cases h
        have hxs : xs.filter (fun x => decide (windowLineOK x ∧ windowLineActive x)) = [] := by
          apply List.eq_nil_of_length_eq_zero
          simp only [List.length_cons] at hone
          omega
        cases hr : t w.calls (listPanesArgs (windowID x)) with
        | fail cause =>
          rw [windowStep_fail t l w x cause hok hr]
          apply ih
          · left; simp [ha, hc0]
          · exact Or.inr hxs
          · rw [hxs]; exact Nat.zero_le _
        | ok out =>
          rw [windowStep_ok t l w x out hok hr]
          apply ih
          · simp only [ha, if_true]
            rcases lastActiveID_cases l.ActivePaneID (panesOfOutput out) with hc | ⟨p, hp, hpa, hpid⟩
            · exact Or.inl (hc.trans hc0)
            · right
              refine ⟨windowOfLine x (panesOfOutput out), by simp, ?_, rfl, p, hp, hpa, hpid⟩
              simp [windowOfLine, ha]
          · exact Or.inr hxs
          · rw [hxs]; exact Nat.zero_le _
      · have hfx : (x :: xs).filter (fun x => decide (windowLineOK x ∧ windowLineActive x)) =
            xs.filter (fun x => decide (windowLineOK x ∧ windowLineActive x)) := by
          simp [ha]
        rw [hfx] at hcur hone
        cases hr : t w.calls (listPanesArgs (windowID x)) with
        | fail cause =>
          rw [windowStep_fail t l w x cause hok hr]
          simp only [ha, if_false]
          exact ih _ _ hinv hcur hone
        | ok out =>
          rw [windowStep_ok t l w x out hok hr]
          simp only [ha, if_false]
          apply ih
          · rcases hinv with h | ⟨win, hwin, hwa, hwid, p, hp, hpa, hpid⟩
            · exact Or.inl h
            · exact Or.inr ⟨win, by simp [hwin], hwa, hwid, p, hp, hpa, hpid⟩
          · exact hcur
          · exact hone
    · have hfx : (x :: xs).filter (fun x => decide (windowLineOK x ∧ windowLineActive x)) =
          xs.filter (fun x => decide (windowLineOK x ∧ windowLineActive x)) := by
        simp [hok]
      rw [hfx] at hcur hone
      rw [windowStep_skip t (l, w) x hok]
      exact ih _ _ hinv hcur hone

/-- The active window id after the loop over `lines`: empty, or the id of a published
window with `Active` true, or the id of an active window line whose `list-panes` query
failed. -/
theorem windowLoop_activeWin (t : Tmux) (lines : List Str) (l : Layout) (w : World)
    (h0 : l.ActiveWinID = []) :
    (lines.foldl (windowStep t) (l, w)).1.ActiveWinID = [] ∨
      (∃ win ∈ (lines.foldl (windowStep t) (l, w)).1.Windows,
        win.Active = true ∧ win.ID = (lines.foldl (windowStep t) (l, w)).1.ActiveWinID) ∨
      (∃ pre line post cause, lines = pre ++ line :: post ∧ windowLineOK line ∧
        windowLineActive line ∧
        windowID line = (lines.foldl (windowStep t) (l, w)).1.ActiveWinID ∧
        t (w.calls ++ loopCalls pre) (listPanesArgs (windowID line)) = CmdResult.fail cause) := by
  induction lines using List.reverseRecOn with
  | nil => exact Or.inl h0
  | append_singleton ls x ih =>
    rw [List.foldl_append, List.foldl_cons, List.foldl_nil, windowLoop_eta t ls l w]
    generalize (ls.foldl (windowStep t) (l, w)).1 = st at ih ⊢
    -- an iteration that keeps the active window id and all windows keeps the property
    have lift : ∀ st2 : Layout, st2.ActiveWinID = st.ActiveWinID →
        (∀ win ∈ st.Windows, win ∈ st2.Windows) →
        st2.ActiveWinID = [] ∨
          (∃ win ∈ st2.Windows, win.Active = true ∧ win.ID = st2.ActiveWinID) ∨
          (∃ pre line post cause, ls ++ [x] = pre ++ line :: post ∧ windowLineOK line ∧
            windowLineActive line ∧ windowID line = st2.ActiveWinID ∧
            t (w.calls ++ loopCalls pre) (listPanesArgs (windowID line)) =
              CmdResult.fail cause) := by
      intro st2 hid hwin
      rw [hid]
      rcases ih with h | ⟨win, hw, hwa, hwid⟩ | ⟨pre, line, post, cause, e, hok, ha, hid2, hf⟩
      · exact Or.inl h
      · exact Or.inr (Or.inl ⟨win, hwin win hw, hwa, hwid⟩)
      · exact Or.inr (Or.inr ⟨pre, line, post ++ [x], cause, by simp [e], hok, ha, hid2, hf⟩)
    by_cases hok : windowLineOK x
    · cases hr : t (w.calls ++ loopCalls ls) (listPanesArgs (windowID x)) with
      | fail cause =>
        rw [windowStep_fail t _ _ x cause hok hr]
        by_cases ha : windowLineActive x
        · simp only [ha, if_true]
          exact Or.inr (Or.inr ⟨ls, x, [], cause, rfl, hok, ha, rfl, hr⟩)
        · simp only [ha, if_false]
          exact lift st rfl (fun _ h => h)
      | ok out =>
        rw [windowStep_ok t _ _ x out hok hr]
        by_cases ha : windowLineActive x
        · simp only [ha, if_true]
          refine Or.inr (Or.inl ⟨windowOfLine x (panesOfOutput out), by simp, ?_, rfl⟩)
          simp [windowOfLine, ha]
        · simp only [ha, if_false]
          exact lift { st with Windows := st.Windows ++ [windowOfLine x (panesOfOutput out)] }
            rfl (fun win h => List.mem_append_left _ h)
    · rw [windowStep_skip t _ x hok]
      exact lift st rfl (fun _ h => h)

/-- C3, as stated, fails in both of its parts.  When `list-panes` fails for the active
window, the published `ActiveWinID` is `@1` although `Windows` is empty.  When two window
lines are active, the published `ActivePaneID` is `%1`, a pane of window `@1`, although
`ActiveWinID` is `@2`. -/
theorem active_ids_not_in_layout :
    (GetLayout (RefreshLayout tmuxListPanesFails freshWorld).2.ctl = some danglingWindowLayout ∧
      danglingWindowLayout.ActiveWinID ≠ [] ∧
      ¬ ∃ win ∈ danglingWindowLayout.Windows,
        win.Active = true ∧ win.ID = danglingWindowLayout.ActiveWinID) ∧
    (GetLayout (RefreshLayout tmuxTwoActiveWindows freshWorld).2.ctl =
        some twoActiveWindowsLayout ∧
      twoActiveWindowsLayout.ActivePaneID ≠ [] ∧
      ¬ ∃ win ∈ twoActiveWindowsLayout.Windows,
        win.ID = twoActiveWindowsLayout.ActiveWinID ∧
        ∃ p ∈ win.Panes, p.Active = true ∧ p.ID = twoActiveWindowsLayout.ActivePaneID) := by
  decide

/-- C3 (amended). For every Layout `L` published by `RefreshLayout`:
* `L.ActiveWinID` is empty, or the id of a window of `L.Windows` whose `Active` is true,
  or the id field of a well-formed window line with active field `1` whose `list-panes`
  query failed;
* `L.ActivePaneID` is empty or the id of a pane with `Active` true in the pane list of a
  window of `L.Windows` whose `Active` is true;
* when at most one well-formed window line has active field `1`, that window is one
  whose id is `L.ActiveWinID`. -/
theorem active_ids_of_published (t : Tmux) (w : World) (L : Layout)
    (hok : (RefreshLayout t w).1 = none)
    (hL : GetLayout (RefreshLayout t w).2.ctl = some L) :
    (L.ActiveWinID = [] ∨
      (∃ win ∈ L.Windows, win.Active = true ∧ win.ID = L.ActiveWinID) ∨
      (∃ pre line post cause, windowLines t w = some (pre ++ line :: post) ∧
        windowLineOK line ∧ windowLineActive line ∧ windowID line = L.ActiveWinID ∧
        panesResult t w pre line = CmdResult.fail cause)) ∧
    (L.ActivePaneID = [] ∨
      ∃ win ∈ L.Windows, win.Active = true ∧
        ∃ p ∈ win.Panes, p.Active = true ∧ p.ID = L.ActivePaneID) ∧
    (∀ lines, windowLines t w = some lines →
      (lines.filter (fun x => decide (windowLineOK x ∧ windowLineActive x))).length ≤ 1 →
      L.ActivePaneID = [] ∨
        ∃ win ∈ L.Windows, win.Active = true ∧ win.ID = L.ActiveWinID ∧
          ∃ p ∈ win.Panes, p.Active = true ∧ p.ID = L.ActivePaneID) := by
  obtain ⟨lines, hlines⟩ := windowLines_of_success t w hok
  obtain ⟨l1, _, hwin0, hpane0, _, hget⟩ := RefreshLayout_published t w _ hlines
  rw [hget, Option.some.injEq] at hL
  subst hL
  refine ⟨?_, ?_, ?_⟩
  · rcases windowLoop_activeWin t lines l1 (loopStart w) hwin0 with
      h | h | ⟨pre, line, post, cause, e, hlok, ha, hid, hf⟩
    · exact Or.inl h
    · exact Or.inr (Or.inl h)
    · exact Or.inr (Or.inr ⟨pre, line, post, cause, by rw [hlines, e], hlok, ha, hid,
        by simpa [panesResult, loopStart] using hf⟩)
  · exact windowLoop_paneInv t lines l1 (loopStart w) (Or.inl hpane0)
  · intro lines2 hl2 hone
    rw [hlines, Option.some.injEq] at hl2
    subst hl2
    exact windowLoop_paneWinInv t lines l1 (loopStart w) (Or.inl hpane0) (Or.inl hpane0) hone

/-- Witness for C3 (amended): the Layout published for two active window lines, and
the Layout published for a single active window line. -/
theorem active_ids_of_published_witness :
    (twoActiveWindowsLayout.ActiveWinID = [] ∨
      (∃ win ∈ twoActiveWindowsLayout.Windows,
        win.Active = true ∧ win.ID = twoActiveWindowsLayout.ActiveWinID) ∨
      (∃ pre line post cause,
        windowLines tmuxTwoActiveWindows freshWorld = some (pre ++ line :: post) ∧
        windowLineOK line ∧ windowLineActive line ∧
        windowID line = twoActiveWindowsLayout.ActiveWinID ∧
        panesResult tmuxTwoActiveWindows freshWorld pre line = CmdResult.fail cause)) ∧
    (twoActiveWindowsLayout.ActivePaneID = [] ∨
      ∃ win ∈ twoActiveWindowsLayout.Windows, win.Active = true ∧
        ∃ p ∈ win.Panes, p.Active = true ∧ p.ID = twoActiveWindowsLayout.ActivePaneID) ∧
    (negativeWidthLayout.ActivePaneID = [] ∨
      ∃ win ∈ negativeWidthLayout.Windows,
        win.Active = true ∧ win.ID = negativeWidthLayout.ActiveWinID ∧
          ∃ p ∈ win.Panes, p.Active = true ∧ p.ID = negativeWidthLayout.ActivePaneID) :=
  ⟨(active_ids_of_published tmuxTwoActiveWindows freshWorld twoActiveWindowsLayout
      (by decide) (by decide)).1,
    (active_ids_of_published tmuxTwoActiveWindows freshWorld twoActiveWindowsLayout
      (by decide) (by decide)).2.1,
    (active_ids_of_published tmuxNegativeWidth freshWorld negativeWidthLayout
      (by decide) (by decide)).2.2 ["@1,main,0,1".toList] (by decide) (by decide)⟩

theorem lastActiveID_filter (cur : Str) (panes : List Pane) :
    lastActiveID cur panes = lastActiveID cur (panes.filter (fun p => p.Active)) := by
  induction panes generalizing cur with
  | nil => rfl
  | cons p ps ih =>
    by_cases hp : p.Active = true
    · rw [List.filter_cons_of_pos hp, lastActiveID_cons, lastActiveID_cons, ih]
    · rw [List.filter_cons_of_neg hp, lastActiveID_cons, ih]
      simp [hp]

theorem lastActiveID_append_singleton (cur : Str) (ps : List Pane) (p : Pane)
    (hp : p.Active = true) : lastActiveID cur (ps ++ [p]) = p.ID := by
  simp [lastActiveID, List.foldl_append, hp]

theorem panesOfOutput_active (panesOut : Str) :
    (panesOfOutput panesOut).filter (fun p => p.Active) =
      ((paneLines panesOut).filter (fun pl => decide (paneLineActive pl))).map paneOfLine := by
  unfold panesOfOutput
  rw [List.filter_map, List.filter_filter]
  congr 1
  apply List.filter_congr
  intro pl _
  simp [paneLineActive, paneOfLine, paneOfParts, and_comm]

theorem windowStep_inactive (t : Tmux) (l : Layout) (w : World) (line : Str)
    (h : ¬ (windowLineOK line ∧ windowLineActive line)) :
    (windowStep t (l, w) line).1.ActivePaneID = l.ActivePaneID := by
  by_cases hok : windowLineOK line
  · have ha : ¬ windowLineActive line := fun ha => h ⟨hok, ha⟩
    cases hr : t w.calls (listPanesArgs (windowID line)) with
    | fail cause => rw [windowStep_fail t l w line cause hok hr]; simp [ha]
    | ok out => rw [windowStep_ok t l w line out hok hr]; simp [ha]
  · rw [windowStep_skip t (l, w) line hok]

theorem windowLoop_inactive (t : Tmux) (lines : List Str) (l : Layout) (w : World)
    (h : ∀ x ∈ lines, ¬ (windowLineOK x ∧ windowLineActive x)) :
    (lines.foldl (windowStep t) (l, w)).1.ActivePaneID = l.ActivePaneID := by
  induction lines generalizing l w with
  | nil => rfl
  | cons x xs ih =>
    rw [List.foldl_cons]
    have h1 := windowStep_inactive t l w x (h x (List.mem_cons_self _ _))
    have h2 := ih (windowStep t (l, w) x).1 (windowStep t (l, w) x).2
      (fun y hy => h y (List.mem_cons_of_mem _ hy))
    exact h2.trans h1

/-- C4, as stated, fails: the single active window reports the pane lines `%1` and `%2`,
both well formed with active field `1`; the first of them is `%1`, yet the refresh
succeeds and publishes `ActivePaneID = %2`. -/
theorem first_active_pane_loses :
    windowLines tmuxTwoActivePanes freshWorld = some ["@1,main,0,1".toList] ∧
      windowLineActive "@1,main,0,1".toList ∧
      (paneLines "%1,0,1,80,24,0,0,bash,first\n%2,1,1,80,24,0,81,bash,second\n".toList).filter
          (fun pl => decide (paneLineActive pl)) =
        ["%1,0,1,80,24,0,0,bash,first".toList, "%2,1,1,80,24,0,81,bash,second".toList] ∧
      (RefreshLayout tmuxTwoActivePanes freshWorld).1 = none ∧
      (GetLayout (RefreshLayout tmuxTwoActivePanes freshWorld).2.ctl).map Layout.ActivePaneID =
        some "%2".toList ∧
      "%2".toList ≠ field (Split "%1,0,1,80,24,0,0,bash,first".toList ',') 0 := by
  decide

/-- C4 (amended). In a successful refresh whose single active window line has a
`list-panes` answer with one or more well-formed pane lines with active field `1`, the
published `ActivePaneID` is the id of the last such pane line in output order. -/
theorem last_active_pane_wins (t : Tmux) (w : World) (pre post : List Str)
    (line panesOut : Str) (firsts : List Str) (lastLine : Str)
    (hlines : windowLines t w = some (pre ++ line :: post))
    (hline : windowLineOK line) (hactive : windowLineActive line)
    (hsingle : ∀ x ∈ pre ++ post, ¬ (windowLineOK x ∧ windowLineActive x))
    (hpanes : panesResult t w pre line = CmdResult.ok panesOut)
    (hacts : (paneLines panesOut).filter (fun pl => decide (paneLineActive pl)) =
      firsts ++ [lastLine]) :
    (RefreshLayout t w).1 = none ∧
      ∃ L, GetLayout (RefreshLayout t w).2.ctl = some L ∧
        L.ActivePaneID = field (Split lastLine ',') 0 := by
  obtain ⟨l1, _, _, _, hnone, hget⟩ := RefreshLayout_published t w _ hlines
  refine ⟨hnone, _, hget, ?_⟩
  rw [List.foldl_append, List.foldl_cons, windowLoop_eta t pre l1 (loopStart w),
    windowStep_ok t _ _ line panesOut hline (by simpa [panesResult, loopStart] using hpanes)]
  rw [windowLoop_inactive t post _ _
    (fun x hx => hsingle x (List.mem_append_right _ hx))]
  simp only [hactive, if_true]
  rw [lastActiveID_filter, panesOfOutput_active, hacts, List.map_append, List.map_singleton,
    lastActiveID_append_singleton]
  · rfl
  · have hmem : lastLine ∈ (paneLines panesOut).filter (fun pl => decide (paneLineActive pl)) := by
      rw [hacts]; simp
    have hla : paneLineActive lastLine := by
      simpa using (List.mem_filter.1 hmem).2
    simp [paneOfLine, paneOfParts, hla.2]

/-- Witness for C4 (amended): of the active panes `%1` and `%2`, the last one, `%2`, is
published. -/
theorem last_active_pane_wins_witness :
    (RefreshLayout tmuxTwoActivePanes freshWorld).1 = none ∧
      ∃ L, GetLayout (RefreshLayout tmuxTwoActivePanes freshWorld).2.ctl = some L ∧
        L.ActivePaneID = field (Split "%2,1,1,80,24,0,81,bash,second".toList ',') 0 :=
  last_active_pane_wins tmuxTwoActivePanes freshWorld [] [] "@1,main,0,1".toList
    "%1,0,1,80,24,0,0,bash,first\n%2,1,1,80,24,0,81,bash,second\n".toList
    ["%1,0,1,80,24,0,0,bash,first".toList] "%2,1,1,80,24,0,81,bash,second".toList
    (by decide) (by decide) (by decide) (by decide) (by decide) (by decide)

end Webtmux
